import Mathlib

/-!
Verification of `entanglement.py`, a Python-bindings generator for C++
headers. The relevant parts of the generator are shallowly embedded below:
clang cursors and types become inductive trees, the module-level argument
globals become explicit parameters, Python dicts become insertion-ordered
association lists, and fatal `raise` calls become `Except.error`. Python
string hashing (used only for anonymous identifiers) is process-salted at
runtime; it is modelled by a fixed deterministic hash, which is adequate
because every theorem below evaluates named cursors only. Python's
`sorted` is a stable sort; it is modelled by insertion sort, which agrees
with it on the duplicate-free key lists produced here.
-/

namespace Entanglement

/-! ## Python-semantics helpers -/

/-- Lexicographic code-point comparison of character lists, the order Python
uses to compare `str` values (`a <= b`). -/
def chars_le : List Char → List Char → Bool
  | [], _ => true
  | _ :: _, [] => false
  | a :: as, b :: bs =>
    if a.toNat < b.toNat then true
    else if a.toNat = b.toNat then chars_le as bs
    else false

/-- Python string comparison `a <= b` by Unicode code points. -/
def py_str_le (a b : String) : Bool := chars_le a.data b.data

/-- Python string comparison `a < b` by Unicode code points. -/
def py_str_lt (a b : String) : Bool := py_str_le a b && !(a == b)

/-- `sorted()` over strings: Python's stable sort by code points. The key
lists sorted in this development are duplicate-free, so any sorting
algorithm gives Python's answer; insertion sort is used. -/
def py_sorted (l : List String) : List String :=
  List.insertionSort (fun a b => py_str_le a b = true) l

/-- Python `str.startswith` (computed on the character lists so that
concrete instances reduce inside the kernel). -/
def py_startswith (s pre : String) : Bool := pre.data.isPrefixOf s.data

/-- Python dict lookup on an insertion-ordered association list (string
keys for the symbol tables, `Nat` keys for the argument-count, generation
and depth maps). -/
def dict_get {κ α : Type} [DecidableEq κ] : List (κ × α) → κ → Option α
  | [], _ => none
  | (k, v) :: rest, key => if k = key then some v else dict_get rest key

/-- `key in dict` for the association-list dict model. -/
def dict_contains {κ α : Type} [DecidableEq κ] (d : List (κ × α)) (key : κ) : Bool :=
  (dict_get d key).isSome

/-- Python dict update `d[key] = v`: replaces in place, or appends a new
key at the end (Python dicts preserve insertion order). -/
def dict_set {κ α : Type} [DecidableEq κ] : List (κ × α) → κ → α → List (κ × α)
  | [], key, v => [(key, v)]
  | (k, w) :: rest, key, v =>
    if k = key then (k, v) :: rest else (k, w) :: dict_set rest key v

/-- `sorted(d.items())` for a Nat-keyed dict: ascending by key (keys are
distinct by construction, so tuple comparison reduces to key comparison). -/
def ndict_sorted {α : Type} (d : List (Nat × α)) : List (Nat × α) :=
  List.insertionSort (fun a b => a.1 ≤ b.1) d

/-- `sorted(d.items(), reverse=True)`: descending by key. -/
def ndict_sorted_rev {α : Type} (d : List (Nat × α)) : List (Nat × α) :=
  (ndict_sorted d).reverse

/-! ## Data model: source locations, clang kinds, cursors and types -/

/-- Source location of a cursor (`cursor.location`). -/
structure Loc where
  file : String := ""
  line : Nat := 0
  column : Nat := 0
deriving DecidableEq, Repr

/-- The clang `TypeKind` values the generator consults. -/
inductive TypeKind where
  | BOOL | CHAR_S | CHAR_U | DOUBLE | FLOAT | INT | LONG | LONGDOUBLE
  | LONGLONG | SCHAR | SHORT | UCHAR | UINT | ULONG | ULONGLONG | USHORT
  | VOID | WCHAR
  | POINTER | LVALUEREFERENCE | RVALUEREFERENCE | CONSTANTARRAY
  | RECORD | ENUM | INVALID
deriving DecidableEq, Repr

/-- The clang `CursorKind` values the generator consults. -/
inductive CursorKind where
  | TRANSLATION_UNIT | NAMESPACE | LINKAGE_SPEC
  | ENUM_DECL | ENUM_CONSTANT_DECL | FUNCTION_DECL
  | STRUCT_DECL | CLASS_DECL | CONSTRUCTOR | DESTRUCTOR | CXX_METHOD
  | FIELD_DECL | PARM_DECL | CXX_BASE_SPECIFIER | ANNOTATE_ATTR
deriving DecidableEq, Repr

/-- The scalar attributes of a clang cursor that the generator reads.
`enum_type_kind` is the canonical kind of `cursor.enum_type` (meaningful
for enum declarations), `type_size` is `cursor.type.get_size()`, and
`is_static` is `storage_class == StorageClass.STATIC`. -/
structure CursorData where
  kind : CursorKind
  spelling : String := ""
  location : Loc := {}
  usr : String := ""
  mangled_name : String := ""
  is_anonymous : Bool := false
  is_definition : Bool := true
  is_virtual_method : Bool := false
  is_pure_virtual_method : Bool := false
  is_scoped_enum : Bool := false
  is_bitfield : Bool := false
  bitfield_width : Nat := 0
  is_static : Bool := false
  enum_value : Int := 0
  enum_type_kind : TypeKind := TypeKind.INT
  type_size : Int := 0
  raw_comment : Option String := none
  displayname : String := ""
deriving DecidableEq, Repr

mutual
/-- A canonical clang type descriptor. Typedef resolution happens in the
source via `get_canonical()`; the descriptors modelled here are already
canonical, so `get_canonical` is the identity. `declared` covers named
enum/struct/class types, carrying their declaration cursor
(`type.get_declaration()`). -/
inductive CppType where
  | fundamental (k : TypeKind)
  | pointer (pointee : CppType)
  | lvalue_reference (pointee : CppType)
  | rvalue_reference (pointee : CppType)
  | constant_array (elem : CppType) (size : Nat)
  | declared (decl : Cursor)

/-- A clang cursor: scalar data plus its type, result type, argument
cursors (`get_arguments()`), children (`get_children()`), the referenced
cursor (for base specifiers) and the semantic parent chain. -/
inductive Cursor where
  | mk (data : CursorData) (type : CppType) (result_type : CppType)
       (args : List Cursor) (children : List Cursor)
       (referenced : Option Cursor) (semantic_parent : Option Cursor)
end

def Cursor.data : Cursor → CursorData
  | .mk d _ _ _ _ _ _ => d

def Cursor.type : Cursor → CppType
  | .mk _ t _ _ _ _ _ => t

def Cursor.result_type : Cursor → CppType
  | .mk _ _ r _ _ _ _ => r

def Cursor.args : Cursor → List Cursor
  | .mk _ _ _ a _ _ _ => a

def Cursor.children : Cursor → List Cursor
  | .mk _ _ _ _ ch _ _ => ch

def Cursor.referenced : Cursor → Option Cursor
  | .mk _ _ _ _ _ r _ => r

def Cursor.semantic_parent : Cursor → Option Cursor
  | .mk _ _ _ _ _ _ p => p

def Cursor.kind (c : Cursor) : CursorKind := c.data.kind
def Cursor.spelling (c : Cursor) : String := c.data.spelling
def Cursor.location (c : Cursor) : Loc := c.data.location
def Cursor.usr (c : Cursor) : String := c.data.usr

/-- `type.kind` of a modelled canonical type descriptor. -/
def CppType.kind : CppType → TypeKind
  | .fundamental k => k
  | .pointer _ => .POINTER
  | .lvalue_reference _ => .LVALUEREFERENCE
  | .rvalue_reference _ => .RVALUEREFERENCE
  | .constant_array _ _ => .CONSTANTARRAY
  | .declared _ => .RECORD

/-- `type.get_canonical()`: the identity here, because the modelled
descriptors are already canonical. -/
def CppType.get_canonical (t : CppType) : CppType := t

/-- `type.get_pointee()` (identity on non-pointer types, unused there). -/
def CppType.get_pointee : CppType → CppType
  | .pointer p => p
  | .lvalue_reference p => p
  | .rvalue_reference p => p
  | t => t

/-- `type.get_declaration()` for named enum/struct/class types. -/
def CppType.get_declaration : CppType → Option Cursor
  | .declared d => some d
  | _ => none

def CppType.get_array_element_type : CppType → CppType
  | .constant_array e _ => e
  | t => t

def CppType.get_array_size : CppType → Nat
  | .constant_array _ n => n
  | _ => 0

/-- The symbols dictionary built by `symbols_add`: Python package path to
the list of cursors (overload candidates) for that path. -/
def Symbols : Type := List (String × List Cursor)

/-! ## Embedded constant tables -/

/-- `_clang_to_ctypes`: fundamental C type kinds to ctypes type strings.
Membership tests `kind in _clang_to_ctypes` become `isSome`. -/
def clang_to_ctypes : TypeKind → Option String
  | .BOOL => some "_Ctypes.c_bool"
  | .CHAR_S => some "_Ctypes.c_char"
  | .CHAR_U => some "_Ctypes.c_ubyte"
  | .DOUBLE => some "_Ctypes.c_double"
  | .FLOAT => some "_Ctypes.c_float"
  | .INT => some "_Ctypes.c_int"
  | .LONG => some "_Ctypes.c_long"
  | .LONGDOUBLE => some "_Ctypes.c_longdouble"
  | .LONGLONG => some "_Ctypes.c_longlong"
  | .SCHAR => some "_Ctypes.c_byte"
  | .SHORT => some "_Ctypes.c_short"
  | .UCHAR => some "_Ctypes.c_ubyte"
  | .UINT => some "_Ctypes.c_uint"
  | .ULONG => some "_Ctypes.c_ulong"
  | .ULONGLONG => some "_Ctypes.c_ulonglong"
  | .USHORT => some "_Ctypes.c_ushort"
  | .VOID => some "None"
  | .WCHAR => some "_Ctypes.c_wchar"
  | _ => none

/-- `_clang_to_ctypes_ptr`: special pointer types. -/
def clang_to_ctypes_ptr : TypeKind → Option String
  | .VOID => some "_Ctypes.c_void_p"
  | .CHAR_S => some "_Ctypes.c_char_p"
  | .WCHAR => some "_Ctypes.c_wchar_p"
  | _ => none

/-- `_clang_to_ctypes_ptr_return`: pointer return types. -/
def clang_to_ctypes_ptr_return : TypeKind → Option String
  | .VOID => some "int"
  | .CHAR_S => some "bytes"
  | .WCHAR => some "str"
  | _ => none

/-- `_clang_to_python`: fundamental kinds to Python type hints. -/
def clang_to_python : TypeKind → Option String
  | .BOOL => some "bool"
  | .CHAR_S => some "int"
  | .CHAR_U => some "int"
  | .DOUBLE => some "float"
  | .FLOAT => some "float"
  | .INT => some "int"
  | .LONG => some "int"
  | .LONGDOUBLE => some "float"
  | .LONGLONG => some "int"
  | .SCHAR => some "int"
  | .SHORT => some "int"
  | .UCHAR => some "int"
  | .UINT => some "int"
  | .ULONG => some "int"
  | .ULONGLONG => some "int"
  | .USHORT => some "int"
  | .VOID => some "None"
  | .WCHAR => some "int"
  | _ => none

/-- `_operator_name_map`: C++ operator spellings to Python dunder names. -/
def operator_name_map : List (String × String) := [
  ("operator+", "__add__"), ("operator&", "__and__"),
  ("operator()", "__call__"), ("operator==", "__eq__"),
  ("operator>=", "__ge__"), ("operator>", "__gt__"),
  ("operator[]", "__getitem__"), ("operator&=", "__iand__"),
  ("operator+=", "__iadd__"), ("operator<<=", "__ilshift__"),
  ("operator*=", "__imul__"), ("operator|=", "__ior__"),
  ("operator%=", "__imod__"), ("operator~", "__invert__"),
  ("operator^=", "__ixor__"), ("operator-=", "__isub__"),
  ("operator/=", "__itruediv__"), ("operator>>=", "__irshift__"),
  ("operator<=", "__le__"), ("operator<<", "__lshift__"),
  ("operator<", "__lt__"), ("operator%", "__mod__"),
  ("operator*", "__mul__"), ("operator!=", "__ne__"),
  ("operator|", "__or__"), ("operator>>", "__rshift__"),
  ("operator-", "__sub__"), ("operator/", "__truediv__"),
  ("operator^", "__xor__")]

/-- `ctypes_reserved`: names claimed by `ctypes.Structure`. -/
def ctypes_reserved : List String := [
  "_alignment_", "_anonymous_", "_argtypes_", "_array_",
  "_as_parameter_", "_bases_", "_buffer_", "_checker_",
  "_class_", "_fields_", "_from_param_", "_func_ptr_",
  "_handle_", "_length_", "_name_", "_objects_", "_offset_",
  "_pack_", "_pointer_", "_restype_", "_size_", "_subclasses_",
  "_type_", "_values_"]

/-- `keyword.kwlist` of the target Python (3.12). -/
def python_kwlist : List String := [
  "False", "None", "True", "and", "as", "assert", "async", "await",
  "break", "class", "continue", "def", "del", "elif", "else", "except",
  "finally", "for", "from", "global", "if", "import", "in", "is",
  "lambda", "nonlocal", "not", "or", "pass", "raise", "return", "try",
  "while", "with", "yield"]

/-- `keyword.softkwlist` of the target Python (3.12). -/
def python_softkwlist : List String := ["_", "case", "match", "type"]

/-- `type_string_kind`: the purpose a type string is generated for. -/
inductive type_string_kind where
  | arg_hint | return_hint | ctypes_args | ctypes_struct
deriving DecidableEq, Repr

/-! ## Naming helpers -/

/-- `raise_error(c, message)`: the formatted fatal message (the embedding
returns it through `Except.error`). -/
def raise_error_msg (c : Cursor) (message : String) : String :=
  s!"{c.location.file}:{c.location.line}:{c.location.column}: {message}\n"

/-- Stand-in for Python's `hash()` on the USR string, used only to name
anonymous cursors. Modelled as a fixed polynomial hash so the embedding
stays deterministic and executable: faithful within a single run, but
the real `hash()` is process-salted, so anonymous `_ID` names are NOT
stable across runs — no theorem below may rely on their run-to-run
stability. -/
def model_str_hash (s : String) : Nat :=
  s.data.foldl (fun h c => h * 31 + c.toNat) 7

/-- `hex()` digits of a natural number (lowercase, no prefix). -/
def hex_digits (n : Nat) : String :=
  String.mk (Nat.toDigits 16 n)

/-- `get_name(cursor)`: the spelling, or `'_ID' + str(hex(hash(usr)))[3:]`
for anonymous cursors (the slice drops `0x` plus one further character). -/
def get_name (cursor : Cursor) : String :=
  if !cursor.data.is_anonymous then cursor.spelling
  else "_ID" ++ String.mk (("0x" ++ hex_digits (model_str_hash cursor.usr)).data.drop 3)

/-- `get_internal_name(cursor)`: mangled name, with C names prefixed
`_C0`. -/
def get_internal_name (cursor : Cursor) : String :=
  if py_startswith cursor.data.mangled_name "_Z" then cursor.data.mangled_name
  else "_C0" ++ cursor.spelling

/-- `get_cxx_symbol_name(cursor)`. -/
def get_cxx_symbol_name (cursor : Cursor) : String := cursor.data.mangled_name

/-- `str.isidentifier()` on the single character `name[8]` (ASCII model:
letters and underscore start an identifier). -/
def char_isidentifier (c : Char) : Bool := c.isAlpha || c == '_'

/-- `get_dunder_name(cursor)`: constructors and destructors become
`__init__`/`__del__`; supported operators map through
`_operator_name_map` (with `__pos__`/`__neg__` for nullary `+`/`-`);
unsupported operators are fatal. -/
def get_dunder_name (cursor : Cursor) : Except String String := do
  let name := get_name cursor
  if cursor.kind = CursorKind.CONSTRUCTOR then
    return "__init__"
  else if cursor.kind = CursorKind.DESTRUCTOR then
    return "__del__"
  else if cursor.kind = CursorKind.CXX_METHOD
      && py_startswith name "operator"
      && name.data.length > 8
      && !(match name.data.get? 8 with
           | some c => char_isidentifier c
           | none => false) then
    match dict_get operator_name_map name with
    | none => Except.error (raise_error_msg cursor s!"{name} unsupported.")
    | some dunder_name =>
      if cursor.args.isEmpty then
        if dunder_name = "__add__" then return "__pos__"
        else if dunder_name = "__sub__" then return "__neg__"
        else return dunder_name
      else return dunder_name
  else
    return name

/-- `is_staticmethod(cursor)`. -/
def is_staticmethod (cursor : Cursor) : Bool :=
  cursor.kind = CursorKind.FUNCTION_DECL ||
    (cursor.kind = CursorKind.CXX_METHOD && cursor.data.is_static)

/-- The loop body of `calculate_namespace`: walk `semantic_parent` links
up to the translation unit, collecting non-anonymous spellings (in
appended order; the caller reverses). `extern "C"` linkage specs reset
the namespace to empty. -/
def namespace_walk : Cursor → List String → List String
  | .mk d _ _ _ _ _ parent, acc =>
    if d.kind = CursorKind.TRANSLATION_UNIT then acc
    else if d.kind = CursorKind.LINKAGE_SPEC then []
    else
      let acc := if !d.is_anonymous then acc ++ [d.spelling] else acc
      match parent with
      | some p => namespace_walk p acc
      | none => acc

/-- `calculate_namespace(cursor)`: namespace names outermost first. -/
def calculate_namespace (cursor : Cursor) : List String :=
  (match cursor.semantic_parent with
   | some p => namespace_walk p []
   | none => []).reverse

/-- `calculate_python_package_path(cursor)`. -/
def calculate_python_package_path (cursor : Cursor) : Except String String := do
  let namespaces := calculate_namespace cursor
  let dunder ← get_dunder_name cursor
  return String.intercalate "." (namespaces ++ [dunder])

mutual
/-- `get_inheritance_generation(cursor)`: `0` for non-class kinds, `1` for
a base-less class/struct, `1 + generation(base)` otherwise (first base
specifier child wins). -/
def get_inheritance_generation : Cursor → Nat
  | .mk d _ _ _ children _ _ =>
    if d.kind = CursorKind.CLASS_DECL ∨ d.kind = CursorKind.STRUCT_DECL then
      generation_from_children children
    else 0

/-- The base-specifier scan inside `get_inheritance_generation`. A base
specifier always references its class in clang; a missing reference is
modelled as base-less. -/
def generation_from_children : List Cursor → Nat
  | [] => 1
  | child :: rest =>
    match child with
    | .mk d _ _ _ _ referenced _ =>
      if d.kind = CursorKind.CXX_BASE_SPECIFIER then
        match referenced with
        | some r => get_inheritance_generation r + 1
        | none => 1
      else generation_from_children rest
end

/-- A child that makes `has_vtable` see a virtual member: a constructor,
destructor or method with `is_virtual_method()`. -/
def is_virtual_member (c : Cursor) : Bool :=
  (c.kind = CursorKind.CONSTRUCTOR || c.kind = CursorKind.DESTRUCTOR ||
    c.kind = CursorKind.CXX_METHOD) && c.data.is_virtual_method

mutual
/-- `has_vtable(cursor)`: the class declares a virtual member and no
direct base reports `has_vtable` itself. -/
def has_vtable : Cursor → Bool
  | .mk _ _ _ _ children _ _ =>
    let has_virtual := children.any is_virtual_member
    if has_virtual then !(some_base_has_vtable children) else false

/-- The base-specifier loop inside `has_vtable`. -/
def some_base_has_vtable : List Cursor → Bool
  | [] => false
  | child :: rest =>
    match child with
    | .mk d _ _ _ _ referenced _ =>
      if d.kind = CursorKind.CXX_BASE_SPECIFIER then
        (match referenced with
         | some r => has_vtable r
         | none => false) || some_base_has_vtable rest
      else some_base_has_vtable rest
end

/-! ## Type Mapper: `calculate_type_string` -/

/-- Approximation of clang's `displayname` for a type, used only inside
fatal error text. -/
def TypeKind.display : TypeKind → String
  | .BOOL => "bool"
  | .CHAR_S => "char"
  | .CHAR_U => "unsigned char"
  | .DOUBLE => "double"
  | .FLOAT => "float"
  | .INT => "int"
  | .LONG => "long"
  | .LONGDOUBLE => "long double"
  | .LONGLONG => "long long"
  | .SCHAR => "signed char"
  | .SHORT => "short"
  | .UCHAR => "unsigned char"
  | .UINT => "unsigned int"
  | .ULONG => "unsigned long"
  | .ULONGLONG => "unsigned long long"
  | .USHORT => "unsigned short"
  | .VOID => "void"
  | .WCHAR => "wchar_t"
  | _ => "?"

/-- Approximation of clang's `type.displayname`, used only inside fatal
error text. -/
def CppType.displayname : CppType → String
  | .fundamental k => k.display
  | .pointer p => p.displayname ++ " *"
  | .lvalue_reference p => p.displayname ++ " &"
  | .rvalue_reference p => p.displayname ++ " &&"
  | .constant_array e n => e.displayname ++ s!"[{n}]"
  | .declared d => d.spelling

/-- The tail of `calculate_type_string` that handles named enum / struct /
class types: the part after the pointer/reference block reassigns
`cpp_type_canonical` to the pointee and sets `is_pointer`, then falls
through to here. `display` carries `cpp_type_ref.displayname` of the
original reference for the incomplete-type error. -/
def named_type_string (cursor : Cursor) (t : CppType) (symbols : Symbols)
    (result_kind : type_string_kind) (is_pointer : Bool) (display : String) :
    Except String String := do
  match t.get_declaration with
  | none => Except.error (raise_error_msg cursor s!"Incomplete type: {display}")
  | some definition_cursor =>
    if !definition_cursor.data.is_definition then
      Except.error (raise_error_msg cursor s!"Incomplete type: {display}")
    else if definition_cursor.kind = CursorKind.ENUM_DECL
        ∨ definition_cursor.kind = CursorKind.STRUCT_DECL
        ∨ definition_cursor.kind = CursorKind.CLASS_DECL then do
      let py_name ← calculate_python_package_path definition_cursor
      if !dict_contains symbols py_name then
        Except.error (raise_error_msg definition_cursor
          s!"Missing definition for: {py_name}. Use ENTANGLEMENT_T.")
      else if definition_cursor.kind = CursorKind.ENUM_DECL then
        if is_pointer then
          Except.error (raise_error_msg definition_cursor
            "Cannot pass enums by pointer or reference. Use int.")
        else if result_kind = type_string_kind.ctypes_args
            ∨ result_kind = type_string_kind.ctypes_struct then
          -- The domain equality of the two dicts makes the lookup total.
          return (clang_to_ctypes definition_cursor.data.enum_type_kind).getD ""
        else
          return "int"
      else if is_pointer ∧ result_kind = type_string_kind.ctypes_args then
        return s!"_Ctypes.POINTER({py_name})"
      else if is_pointer ∧ result_kind = type_string_kind.ctypes_struct then
        return "_Ctypes.c_void_p"
      else
        return py_name
    else
      let k := definition_cursor.kind
      Except.error (raise_error_msg cursor s!"Unsupported definition kind {repr k}")

/-- The pointer/reference block of `calculate_type_string`. `outer_kind`
is the kind of the canonical pointer/reference type itself and
`pointee_type_canonical` its canonical pointee. Depth two (a pointee that
is again a pointer or reference) is fatal before anything else. -/
def pointer_type_string (cursor : Cursor) (outer_kind : TypeKind)
    (pointee_type_canonical : CppType) (symbols : Symbols)
    (result_kind : type_string_kind) (display : String) : Except String String :=
  if pointee_type_canonical.kind = TypeKind.POINTER
      ∨ pointee_type_canonical.kind = TypeKind.LVALUEREFERENCE
      ∨ pointee_type_canonical.kind = TypeKind.RVALUEREFERENCE then
    Except.error (raise_error_msg cursor "Only one pointer or reference allowed in an API type.")
  else
    match clang_to_ctypes pointee_type_canonical.kind with
    | some pointee_ctypes =>
      if result_kind = type_string_kind.arg_hint then
        if outer_kind = TypeKind.POINTER then pure "_Any"
        else pure pointee_ctypes
      else if result_kind = type_string_kind.return_hint then
        match clang_to_ctypes_ptr_return pointee_type_canonical.kind with
        | some ret_str =>
          if outer_kind = TypeKind.LVALUEREFERENCE ∨ outer_kind = TypeKind.RVALUEREFERENCE then
            Except.error (raise_error_msg cursor "Return char and wchar_t by reference unsupported.")
          else pure ret_str
        | none => pure "_Any"
      else
        match clang_to_ctypes_ptr pointee_type_canonical.kind with
        | some explicit_ptr => pure explicit_ptr
        | none => pure s!"_Ctypes.POINTER({pointee_ctypes})"
    | none =>
      named_type_string cursor pointee_type_canonical symbols result_kind true display

/-- `calculate_type_string(cursor, cpp_type_ref, symbols, result_kind)`.
The source dispatches by dict membership and kind tests on
`cpp_type_ref.get_canonical()`; those tests are disjoint over the
canonical constructors, so the match below cases on the canonical
constructor directly, keeping the source's branch order inside each
case. -/
def calculate_type_string (cursor : Cursor) (cpp_type_ref : CppType)
    (symbols : Symbols) (result_kind : type_string_kind) : Except String String :=
  match cpp_type_ref with
  | .fundamental k =>
    match clang_to_ctypes k with
    | some fund_ctypes =>
      if result_kind = type_string_kind.ctypes_args
          ∨ result_kind = type_string_kind.ctypes_struct then
        pure fund_ctypes
      else if result_kind = type_string_kind.arg_hint ∧ k = TypeKind.WCHAR then
        pure "str"
      else
        -- The domain equality of the two dicts makes the lookup total.
        pure ((clang_to_python k).getD "")
    | none =>
      -- Not a mapped fundamental: the source falls through to the
      -- named-definition lookup, which fails as an incomplete type.
      named_type_string cursor (.fundamental k) symbols result_kind false
        (CppType.displayname (.fundamental k))
  | .constant_array elem n =>
    if result_kind ≠ type_string_kind.ctypes_struct then
      Except.error (raise_error_msg cursor "Constant arrays supported in class and struct layouts only.")
    else do
      let array_element_string ← calculate_type_string cursor elem symbols result_kind
      return s!"{array_element_string} * {n}"
  | .pointer pointee =>
    pointer_type_string cursor TypeKind.POINTER pointee.get_canonical symbols result_kind
      (CppType.displayname (.pointer pointee))
  | .lvalue_reference pointee =>
    pointer_type_string cursor TypeKind.LVALUEREFERENCE pointee.get_canonical symbols
      result_kind (CppType.displayname (.lvalue_reference pointee))
  | .rvalue_reference pointee =>
    pointer_type_string cursor TypeKind.RVALUEREFERENCE pointee.get_canonical symbols
      result_kind (CppType.displayname (.rvalue_reference pointee))
  | .declared d =>
    named_type_string cursor (.declared d) symbols result_kind false
      (CppType.displayname (.declared d))

/-! ## Docstring emission -/

/-- Python `str.strip()` (whitespace model: `Char.isWhitespace`). -/
def py_strip (s : String) : String :=
  String.mk (((s.data.dropWhile Char.isWhitespace).reverse.dropWhile Char.isWhitespace).reverse)

/-- Python `str.splitlines()` (model: split at `'\n'`). -/
def chars_splitlines (l : List Char) : List (List Char) :=
  let rec go : List Char → List Char → List (List Char)
    | [], acc => [acc.reverse]
    | c :: rest, acc =>
      if c = '\n' then acc.reverse :: go rest []
      else go rest (c :: acc)
  go l []

def py_splitlines (s : String) : List String :=
  (chars_splitlines s.data).map String.mk

/-- `str.replace` for a single-character pattern. -/
def chars_replace (pat : Char) (repl : List Char) : List Char → List Char
  | [] => []
  | c :: rest => (if c = pat then repl else [c]) ++ chars_replace pat repl rest

/-- One iteration of the comment-cleaning loop in `emit_python_api_doc`:
strip, drop a leading `///` or `//`, escape backslashes and single
quotes. -/
def clean_comment_line (line : String) : String :=
  let line := py_strip line
  let line :=
    if py_startswith line "///" then py_strip (String.mk (line.data.drop 3))
    else if py_startswith line "//" then py_strip (String.mk (line.data.drop 2))
    else line
  String.mk (chars_replace '\'' ['\\', '\''] (chars_replace '\\' ['\\', '\\'] line.data))

/-- `emit_python_api_doc(tabs, cursor)`: the docstring lines generated
from the raw comment (or the one-line default docstring). -/
def emit_python_api_doc (tabs : String) (cursor : Cursor) : List String :=
  let name :=
    if cursor.kind = CursorKind.FUNCTION_DECL ∨ cursor.kind = CursorKind.CONSTRUCTOR
        ∨ cursor.kind = CursorKind.DESTRUCTOR ∨ cursor.kind = CursorKind.CXX_METHOD then
      (CppType.displayname cursor.result_type) ++ " " ++ cursor.data.displayname
    else get_name cursor
  let fallback := [s!"{tabs}\x27\x27\x27 ### `{name}` \x27\x27\x27"]
  match cursor.data.raw_comment with
  | some comment =>
    let cleaned := (py_splitlines comment).map clean_comment_line
    let doc := String.intercalate ("\n" ++ tabs) cleaned
    if doc ≠ "" ∧ ¬(doc.data.all Char.isWhitespace) then
      [s!"{tabs}\x27\x27\x27\n{tabs}### `{name}`\n{tabs}{doc} \x27\x27\x27"]
    else fallback
  | none => fallback

/-! ## Overload selector generation -/

/-- The argument loop of `emit_ctypes_function_args`: pointer arguments
go through `_Pointer_shim`, references through `_Ctypes.byref`. -/
def ctypes_args_loop (cursor : Cursor) (symbols : Symbols) (overloaded : Bool) :
    List Cursor → Nat → Except String (List String)
  | [], _ => .ok []
  | arg :: rest, arg_index => do
    let arg_type_kind := arg.type.kind
    let arg_name :=
      if overloaded then s!"_Args[{arg_index}]"
      else if arg.spelling ≠ "" then arg.spelling else s!"_Arg{arg_index}"
    let piece ←
      if arg_type_kind = TypeKind.POINTER then do
        let pointee_type := arg.type.get_pointee
        let pointee_c_type ← calculate_type_string cursor pointee_type symbols
          type_string_kind.ctypes_args
        if pointee_c_type ≠ "None" then
          pure s!"_Pointer_shim({arg_name}, {pointee_c_type})"
        else pure arg_name
      else if arg_type_kind = TypeKind.LVALUEREFERENCE
          ∨ arg_type_kind = TypeKind.RVALUEREFERENCE then
        pure s!"_Ctypes.byref({arg_name})"
      else pure arg_name
    let rest_pieces ← ctypes_args_loop cursor symbols overloaded rest (arg_index + 1)
    return piece :: rest_pieces

/-- `emit_ctypes_function_args(cursor, symbols, overloaded)`. -/
def emit_ctypes_function_args (cursor : Cursor) (symbols : Symbols)
    (overloaded : Bool) : Except String String := do
  let arg_list ← ctypes_args_loop cursor symbols overloaded cursor.args 0
  return String.intercalate "," arg_list

/-- The body of `emit_python_api_overload_arg0_isinstance`, returning both
the ctypes type string used inside the check (needed by the run-time
semantics below) and the full boolean expression. -/
def arg0_isinstance_parts (cursor : Cursor) (symbols : Symbols) (overloaded : Bool) :
    Except String (String × String) := do
  match cursor.args with
  | [] => Except.error "AssertionError: Impossible to overload 0 args."
  | arg :: _ =>
    let arg_name :=
      if overloaded then "_Args[0]"
      else if arg.spelling ≠ "" then arg.spelling else "_Arg0"
    let arg_type_kind := arg.type.kind
    if arg_type_kind = TypeKind.POINTER ∨ arg_type_kind = TypeKind.LVALUEREFERENCE
        ∨ arg_type_kind = TypeKind.RVALUEREFERENCE then do
      let pointee_c_type ← calculate_type_string cursor arg.type.get_pointee symbols
        type_string_kind.ctypes_args
      return (pointee_c_type, s!"isinstance({arg_name}, {pointee_c_type})")
    else do
      let c_type ← calculate_type_string cursor arg.type symbols type_string_kind.ctypes_args
      return (c_type, s!"isinstance({arg_name}, {c_type})")

/-- `emit_python_api_overload_arg0_isinstance(cursor, symbols, overloaded)`. -/
def emit_python_api_overload_arg0_isinstance (cursor : Cursor) (symbols : Symbols)
    (overloaded : Bool) : Except String String := do
  let parts ← arg0_isinstance_parts cursor symbols overloaded
  return parts.2

/-- The first-argument generation computed per candidate inside the
selector loop: `0` unless the bucket's argument count is non-zero and the
first argument's canonical type (through one pointer/reference) is a
declared class/struct. -/
def arg0_generation (cursor : Cursor) : Nat :=
  if cursor.args.length ≠ 0 then
    match cursor.args with
    | arg :: _ =>
      let arg0_type := arg.type.get_canonical
      let arg0_type :=
        if arg0_type.kind = TypeKind.POINTER ∨ arg0_type.kind = TypeKind.LVALUEREFERENCE
            ∨ arg0_type.kind = TypeKind.RVALUEREFERENCE then
          arg0_type.get_pointee.get_canonical
        else arg0_type
      match arg0_type.get_declaration with
      | some decl => get_inheritance_generation decl
      | none => 0  -- clang's null declaration cursor has a non-class kind
    | [] => 0
  else 0

/-- The Python grouping idiom shared by the three bucket-building loops
of the generator (`arg_count_map`, `inheritance_generation_map` and
`depth_sorted_symbols`): elements passing `keep` are appended to the
bucket of their `key`, creating buckets in first-appearance order as a
Python dict does. -/
def py_group_by {α : Type} (key : α → Nat) (keep : α → Bool) :
    List α → List (Nat × List α) → List (Nat × List α)
  | [], m => m
  | a :: rest, m =>
    if keep a then
      let k := key a
      let m :=
        match dict_get m k with
        | none => dict_set m k [a]
        | some l => dict_set m k (l ++ [a])
      py_group_by key keep rest m
    else py_group_by key keep rest m

/-- The `arg_count_map` grouping loop: pure virtual methods are skipped,
everything else is appended to its argument-count bucket. -/
def group_overloads_by_arg_count (overloads : List Cursor)
    (m : List (Nat × List Cursor)) : List (Nat × List Cursor) :=
  py_group_by (fun cursor => cursor.args.length)
    (fun cursor => !cursor.data.is_pure_virtual_method) overloads m

/-- The `inheritance_generation_map` grouping loop inside one bucket
(started from `{0: []}` by the caller). -/
def group_by_generation (overload_group : List Cursor)
    (m : List (Nat × List Cursor)) : List (Nat × List Cursor) :=
  py_group_by arg0_generation (fun _ => true) overload_group m

/-- One emitted branch of the selector: the candidate, the ctypes type
string of the `isinstance` guard (`none` for the final unconditional
branch of a bucket) and the emitted source lines. -/
structure SelBranch where
  cursor : Cursor
  guard : Option String
  lines : List String

/-- One `case N:` bucket of the generated `match` statement. -/
structure SelCase where
  arg_count : Nat
  case_line : String
  branches : List SelBranch

/-- The structured form of the generated overload selector; the emitted
file contains exactly `render_selector` of it. -/
structure Selector where
  head_lines : List String
  cases : List SelCase
  tail_lines : List String

/-- The per-candidate emission loop of one bucket, carrying the source's
`counter`: while `counter > 1` a branch is guarded by the first-argument
`isinstance` check (and `counter` decreases), the final candidate is
unconditional. -/
def build_branches (namespace_tabs self_arg : String) (symbols : Symbols) :
    List Cursor → Nat → Except String (List SelBranch)
  | [], _ => .ok []
  | cursor :: rest, counter => do
    let internal_name := get_internal_name cursor
    let arg_str ← emit_ctypes_function_args cursor symbols true
    if counter > 1 then
      -- The source asserts `generation > 0` here: guards exist only for
      -- class/struct first arguments.
      let parts ← arg0_isinstance_parts cursor symbols true
      let arg0_selector := parts.2
      let branch_lines := [
        s!"{namespace_tabs}\t\t\tif {arg0_selector}:",
        s!"{namespace_tabs}\t\t\t\treturn {internal_name}({self_arg}{arg_str}) # type: ignore"]
      let rest_branches ← build_branches namespace_tabs self_arg symbols rest (counter - 1)
      return { cursor := cursor, guard := some parts.1, lines := branch_lines } :: rest_branches
    else
      let branch_lines :=
        [s!"{namespace_tabs}\t\t\treturn {internal_name}({self_arg}{arg_str}) # type: ignore"]
      let rest_branches ← build_branches namespace_tabs self_arg symbols rest counter
      return { cursor := cursor, guard := none, lines := branch_lines } :: rest_branches

/-- Emission of one argument-count bucket: group by first-argument
generation (map seeded with `{0: []}`), abort if more than one candidate
has generation `0`, then emit candidates in descending generation order
with the counter protocol. -/
def build_case (namespace_tabs self_arg : String) (symbols : Symbols)
    (arg_count : Nat) (overload_group : List Cursor) : Except String SelCase := do
  let inheritance_generation_map := group_by_generation overload_group [(0, [])]
  match (dict_get inheritance_generation_map 0).getD [] with
  | c0 :: _ :: _ =>
    Except.error (raise_error_msg c0
      "Unable to disambiguate overloaded functions by arg count and class of the first arg.")
  | _ => do
    let ordered := (ndict_sorted_rev inheritance_generation_map).flatMap (fun p => p.2)
    let counter := overload_group.length
    let branches ← build_branches namespace_tabs self_arg symbols ordered counter
    return { arg_count := arg_count,
             case_line := s!"{namespace_tabs}\t\tcase {arg_count}:",
             branches := branches }

/-- The bucket loop of the selector, over `sorted(arg_count_map.items())`. -/
def build_cases (namespace_tabs self_arg : String) (symbols : Symbols) :
    List (Nat × List Cursor) → Except String (List SelCase)
  | [] => .ok []
  | (arg_count, overload_group) :: rest => do
    let sc ← build_case namespace_tabs self_arg symbols arg_count overload_group
    let rest_cases ← build_cases namespace_tabs self_arg symbols rest
    return sc :: rest_cases

/-- `emit_python_api_overload_selector`, in structured form: decorator
and `def`/`assert`/`match` boilerplate, one `SelCase` per argument
count in ascending order, and the loud `case _:` fallback. -/
def build_selector (namespace_tabs : String) (overloads : List Cursor)
    (symbols : Symbols) : Except String Selector := do
  let static_method := overloads.any is_staticmethod
  let decorator_lines := if static_method then [namespace_tabs ++ "@_Staticmethod"] else []
  let function_name ←
    match overloads with
    | c :: _ => get_dunder_name c
    | [] => Except.error "IndexError: overloads[0]"  -- callers always pass a non-empty list
  let self_arg := if !static_method then "self," else ""
  let head_lines := decorator_lines ++ [
    s!"{namespace_tabs}def {function_name}({self_arg}*_Args,**_Kwargs):",
    s!"{namespace_tabs}\tassert not _Kwargs, \x27Keyword arguments.\x27",
    s!"{namespace_tabs}\tmatch _Len(_Args):"]
  let arg_count_map := group_overloads_by_arg_count overloads []
  let self_arg := if !static_method then "_Ctypes.byref(self)," else ""
  let cases ← build_cases namespace_tabs self_arg symbols (ndict_sorted arg_count_map)
  let tail_lines := [
    s!"{namespace_tabs}\t\tcase _:",
    s!"{namespace_tabs}\t\t\tassert False, f\x27Arg count: \x7b_Len(_Args)\x7d\x27",
    s!"{namespace_tabs}\t\t\t..."]
  return { head_lines := head_lines, cases := cases, tail_lines := tail_lines }

/-- Flattening of the structured selector into the emitted lines. -/
def render_selector (sel : Selector) : List String :=
  sel.head_lines
    ++ sel.cases.flatMap (fun sc => sc.case_line :: sc.branches.flatMap (fun b => b.lines))
    ++ sel.tail_lines

/-- `emit_python_api_overload_selector(namespace_tabs, overloads, symbols)`. -/
def emit_python_api_overload_selector (namespace_tabs : String)
    (overloads : List Cursor) (symbols : Symbols) : Except String (List String) :=
  (build_selector namespace_tabs overloads symbols).map render_selector

/-! ## Run-time semantics of the generated selector

The generated selector is a Python `match` over `len(_Args)` whose
`case N:` bodies are `if isinstance(_Args[0], C):` chains ending in an
unconditional `return`, plus a `case _:` assertion. The functions below
give that generated code its run-time meaning: a call is described by its
argument count and (optionally) the class of its first argument;
`isinstance(x, C)` is true iff `C` is the class of `x` or one of its
(single-inheritance) bases. Classes are identified by their generated
package path, which is unique in the scenarios considered. -/

/-- The package path under which a class/struct is emitted. For class
cursors `get_dunder_name` returns `get_name`, so this is their
`calculate_python_package_path`. -/
def class_path (c : Cursor) : String :=
  String.intercalate "." (calculate_namespace c ++ [get_name c])

mutual
/-- A class cursor followed by its single-inheritance chain of bases
(first base specifier of each class, as `get_inheritance_generation`
walks it). -/
def ancestor_chain : Cursor → List Cursor
  | c@(.mk _ _ _ _ children _ _) => c :: chain_from_children children

/-- The base-specifier scan feeding `ancestor_chain`. -/
def chain_from_children : List Cursor → List Cursor
  | [] => []
  | child :: rest =>
    match child with
    | .mk d _ _ _ _ referenced _ =>
      if d.kind = CursorKind.CXX_BASE_SPECIFIER then
        match referenced with
        | some r => ancestor_chain r
        | none => []
      else chain_from_children rest
end

/-- `isinstance(x, C)` where `x` is an instance of `obj_class` and `C` is
the class emitted at package path `type_name`. -/
def py_isinstance (obj_class : Cursor) (type_name : String) : Bool :=
  (ancestor_chain obj_class).any (fun a => class_path a = type_name)

/-- The outcome of running the generated selector on one call. -/
inductive Dispatch where
  | call (target : Cursor)
  | arg_count_error (n : Nat)

/-- Running one bucket body: guarded branches fall through on a failed
`isinstance`, an unguarded branch returns. `obj_class` is `none` when the
first run-time argument is not an instance of any bound class (guards are
then false). The `[]` case is unreachable: every emitted bucket ends with
an unconditional branch. -/
def eval_branches (obj_class : Option Cursor) (n : Nat) : List SelBranch → Dispatch
  | [] => .arg_count_error n
  | b :: rest =>
    match b.guard with
    | none => .call b.cursor
    | some type_name =>
      match obj_class with
      | some cls =>
        if py_isinstance cls type_name then .call b.cursor
        else eval_branches obj_class n rest
      | none => eval_branches obj_class n rest

/-- Running the `match` statement: Python tries each `case` in order;
`case N:` matches a call of `N` arguments; `case _:` raises the
arg-count assertion. -/
def eval_cases (obj_class : Option Cursor) (n : Nat) : List SelCase → Dispatch
  | [] => .arg_count_error n
  | sc :: rest =>
    if sc.arg_count = n then eval_branches obj_class n sc.branches
    else eval_cases obj_class n rest

/-- Running the whole generated selector on a call with `n` arguments
whose first argument (if any) is an instance of `obj_class`. -/
def eval_selector (sel : Selector) (obj_class : Option Cursor) (n : Nat) : Dispatch :=
  eval_cases obj_class n sel.cases

/-! ## Enum emission -/

/-- The per-constant value fix from `emit_python_api_enum`: for enums
whose canonical underlying type is `unsigned int`, `unsigned long` or
`unsigned long long` the parser value is reinterpreted as unsigned 64-bit
(`value & 0xffffffffffffffff`, which on Python ints equals
`value % 2**64`; `Int.emod` with the positive modulus matches Python's
`%`). All other underlying types keep the parser value. -/
def masked_enum_value (force_unsigned : Bool) (v : Int) : Int :=
  if force_unsigned then v % 18446744073709551616 else v

/-- The constant-emission loop of `emit_python_api_enum`. -/
def enum_constant_lines (enum_tabs : String) (force_unsigned : Bool)
    (children : List Cursor) : List String :=
  children.filterMap fun constant =>
    if constant.kind = CursorKind.ENUM_CONSTANT_DECL then
      let spelling := constant.spelling
      let v := masked_enum_value force_unsigned constant.data.enum_value
      some s!"{enum_tabs}{spelling}={v}"
    else none

/-- The second loop of `emit_python_api_enum`: constants of an unscoped
enum are re-exported into the surrounding namespace. -/
def unscoped_constant_lines (namespace_tabs enum_name : String)
    (children : List Cursor) : List String :=
  children.filterMap fun constant =>
    if constant.kind = CursorKind.ENUM_CONSTANT_DECL then
      let spelling := constant.spelling
      some s!"{namespace_tabs}{spelling}={enum_name}.{spelling}"
    else none

/-- `emit_python_api_enum(namespace_tabs, cursor)`. -/
def emit_python_api_enum (namespace_tabs : String) (cursor : Cursor) :
    Except String (List String) := do
  let enum_name := get_name cursor
  let class_line := s!"{namespace_tabs}class {enum_name}(_Enum.IntEnum):"
  let enum_tabs := namespace_tabs ++ "\t"
  let doc_lines := emit_python_api_doc enum_tabs cursor
  let underlying_kind := cursor.data.enum_type_kind
  let force_unsigned :=
    underlying_kind = TypeKind.UINT ∨ underlying_kind = TypeKind.ULONG
      ∨ underlying_kind = TypeKind.ULONGLONG
  let constant_lines := enum_constant_lines enum_tabs force_unsigned cursor.children
  if constant_lines.isEmpty then
    Except.error (raise_error_msg cursor ("Empty enums not allowed in Python: " ++ enum_name))
  else
    let plain_lines :=
      if !cursor.data.is_scoped_enum then
        unscoped_constant_lines namespace_tabs enum_name cursor.children
      else []
    return [class_line] ++ doc_lines ++ constant_lines ++ plain_lines

/-! ## Aggregate layout emission (`emit_structure_list`) -/

/-- `get_base_class(cursor)`: the package path of the single base class,
`_Ctypes.Structure` if none, fatal on multiple inheritance. -/
def get_base_class (cursor : Cursor) : Except String String := do
  if ((cursor.children.filter (fun c => c.kind = CursorKind.CXX_BASE_SPECIFIER)).length > 1) then
    Except.error (raise_error_msg cursor "Multiple inheritance unsupported by Python\x27s ctypes module.")
  else
    match cursor.children.find? (fun c => c.kind = CursorKind.CXX_BASE_SPECIFIER) with
    | some child =>
      match child.referenced with
      | some r => calculate_python_package_path r
      | none => Except.error "base specifier without referenced declaration"
    | none => return "_Ctypes.Structure"

/-- The field loop of one structure entry. -/
def structure_field_lines (symbols : Symbols) : List Cursor → Except String (List String)
  | [] => .ok []
  | field :: rest =>
    if field.kind = CursorKind.FIELD_DECL then do
      let ctypes_type ← calculate_type_string field field.type symbols
        type_string_kind.ctypes_struct
      let bits := if field.data.is_bitfield then s!", {field.data.bitfield_width}" else ""
      let spelling := field.spelling
      let line := s!"\t\t(\x27{spelling}\x27, {ctypes_type}{bits}),"
      let rest_lines ← structure_field_lines symbols rest
      return line :: rest_lines
    else structure_field_lines symbols rest

/-- Emission of one class/struct layout: class header, optional vtable
slot, one tuple per `FIELD_DECL` child, closing bracket with the path
alias, and the emitted sizeof self-check. A class with zero `FIELD_DECL`
children is fatal (the source counts only field tuples in `field_count`,
so a vtable-only class is also fatal). -/
def emit_structure_entry (counter : Nat) (cursor0 : Cursor) (symbols : Symbols) :
    Except String (List String) := do
  let name := get_name cursor0
  let path ← calculate_python_package_path cursor0
  let base ← get_base_class cursor0
  let head := [s!"class _T{counter}{name}({path}, {base}):", "\t_fields_ = ["]
  let vtable_lines :=
    if has_vtable cursor0 then ["\t\t(\x27_Vtable\x27, _Ctypes.c_void_p),"] else []
  let field_lines ← structure_field_lines symbols cursor0.children
  if field_lines.isEmpty then
    Except.error (raise_error_msg cursor0 "Empty class/struct unsupported due to ctypes.")
  else
    let size := cursor0.data.type_size
    return head ++ vtable_lines ++ field_lines
      ++ [s!"\t]\n{path}=_T{counter}{name}", s!"assert _Ctypes.sizeof({path})=={size}"]

/-- The first loop of `emit_structure_list`: bucket the class/struct
symbol lists by inheritance generation of their first cursor (symbol
lists are non-empty by construction of `symbols_add`; an empty list is
skipped here). -/
def depth_group (sorted_symbols : List (List Cursor))
    (m : List (Nat × List (List Cursor))) : List (Nat × List (List Cursor)) :=
  py_group_by
    (fun cursor_list =>
      match cursor_list with
      | cursor0 :: _ => get_inheritance_generation cursor0
      | [] => 0)
    (fun cursor_list =>
      match cursor_list with
      | cursor0 :: _ =>
        decide (cursor0.kind = CursorKind.CLASS_DECL ∨ cursor0.kind = CursorKind.STRUCT_DECL)
      | [] => false)
    sorted_symbols m

/-- The second loop of `emit_structure_list`: visit by ascending depth,
then sort order, with a running counter naming the `_T{n}` helper
classes. -/
def structure_emit_loop (symbols : Symbols) : List (List Cursor) → Nat →
    Except String (List String)
  | [], _ => .ok []
  | cursor_list :: rest, counter =>
    match cursor_list with
    | [] => structure_emit_loop symbols rest counter
    | cursor0 :: _ =>
      if cursor0.kind = CursorKind.CLASS_DECL ∨ cursor0.kind = CursorKind.STRUCT_DECL then do
        let entry ← emit_structure_entry counter cursor0 symbols
        let rest_lines ← structure_emit_loop symbols rest (counter + 1)
        return entry ++ rest_lines
      else structure_emit_loop symbols rest counter

/-- `emit_structure_list(symbols, sorted_symbols, structure_list)`. The
source appends into `structure_list` and raises on the first violation,
aborting the whole run (nothing is written); the embedding returns the
produced lines or the fatal error. -/
def emit_structure_list (symbols : Symbols) (sorted_symbols : List (List Cursor)) :
    Except String (List String) :=
  let depth_sorted_symbols := depth_group sorted_symbols []
  structure_emit_loop symbols
    ((ndict_sorted depth_sorted_symbols).flatMap (fun p => p.2)) 0

/-! ## Symbol table construction and ordering -/

/-- The reserved-identifier checks at the top of `symbols_add`: fatal for
a named cursor whose spelling is `_`-plus-uppercase, a Python (soft)
keyword, or reserved by `ctypes.Structure`. -/
def symbols_add_checks (cursor : Cursor) : Except String Unit :=
  if !cursor.data.is_anonymous then
    if py_startswith cursor.spelling "_" && decide (cursor.spelling.data.length > 1)
        && (match cursor.spelling.data.get? 1 with
            | some c => c.isUpper
            | none => false) then
      Except.error (raise_error_msg cursor
        "1 leading underscore followed by a capital letter reserved by entanglement.py.")
    else if cursor.spelling ∈ python_kwlist ∨ cursor.spelling ∈ python_softkwlist then
      Except.error (raise_error_msg cursor (cursor.spelling ++ " is a keyword in Python."))
    else if cursor.spelling ∈ ctypes_reserved then
      Except.error (raise_error_msg cursor (cursor.spelling ++ " is reserved by ctypes.Structure."))
    else pure ()
  else pure ()

/-- `symbols_add(cursor, symbols)`: reserved-identifier checks for named
cursors, then insertion keyed by the Python package path, dropping the
cursor when the same USR is already recorded under that path (`raise`
propagation is written as explicit error matches). -/
def symbols_add (cursor : Cursor) (symbols : Symbols) : Except String Symbols :=
  match symbols_add_checks cursor with
  | .error e => .error e
  | .ok _ =>
    match calculate_python_package_path cursor with
    | .error e => .error e
    | .ok sym =>
      match dict_get symbols sym with
      | none => .ok (dict_set symbols sym [cursor])
      | some l =>
        if !(l.any fun c => c.usr = cursor.usr) then
          .ok (dict_set symbols sym (l ++ [cursor]))
        else .ok symbols

/-- The composite sort key computed per entry by `symbols_sort`: the
dot-joined namespace components plus dunder name of the entry's first
cursor (`cursor_list[0]` raises on an empty list, which cannot arise
from `symbols_add`). -/
def symbol_sort_key : List Cursor → Except String String
  | [] => Except.error "IndexError: cursor_list[0]"
  | cursor0 :: _ =>
    match get_dunder_name cursor0 with
    | .error e => .error e
    | .ok dunder =>
      .ok (String.intercalate "." (calculate_namespace cursor0 ++ [dunder]))

/-- The first loop of `symbols_sort`: rebuild the `symbols_by_sort_key`
dict from `symbols.values()` keyed by `symbol_sort_key`. The source's
`assert not sort_key_str in symbols_by_sort_key` becomes a fatal error
(Python assertion failures abort the run). -/
def symbols_sort_build : List (List Cursor) → List (String × List Cursor) →
    Except String (List (String × List Cursor))
  | [], acc => .ok acc
  | cursor_list :: rest, acc =>
    match symbol_sort_key cursor_list with
    | .error e => .error e
    | .ok sort_key_str =>
      if dict_contains acc sort_key_str then
        Except.error "AssertionError: sort_key_str in symbols_by_sort_key"
      else
        symbols_sort_build rest (dict_set acc sort_key_str cursor_list)

/-- `symbols_sort(symbols, sorted_symbols)`: the final output order, the
values of the rebuilt dict visited by `sorted(keys)`. Every sorted key is
a dict key, so the lookups succeed; `filterMap` models them. -/
def symbols_sort (symbols : Symbols) : Except String (List (List Cursor)) := do
  let symbols_by_sort_key ← symbols_sort_build (symbols.map (fun p => p.2)) []
  let sorted_keys := py_sorted (symbols_by_sort_key.map (fun p => p.1))
  return sorted_keys.filterMap (fun key => dict_get symbols_by_sort_key key)

/-! ## Output assembly -/

/-- The fixed prologue of the generated file (imports, `_Pointer_shim`,
section banner). -/
def output_prologue : String :=
  "\nimport ctypes as _Ctypes\nimport enum as _Enum\nimport numpy as _Numpy\nimport os as _OS\nimport sys as _Sys\nfrom typing import Any as _Any\nfrom typing import overload as _Overload\n_Exception = Exception\n_Len = len\n_Staticmethod = staticmethod\n\n# PYTHON API ----------------------------------------------------------\n\ndef _Pointer_shim(_Obj: _Any, _CType):\n\tif isinstance(_Obj, _CType):\n\t\treturn _Ctypes.byref(_Obj)\n\telif isinstance(_Obj, _Numpy.ndarray):\n\t\treturn _Numpy.ctypeslib.as_ctypes(_Obj)\n\treturn _Obj\n"

/-- The fixed structure-list banner. -/
def structure_list_banner : String :=
  "\n# STRUCTURE LIST ------------------------------------------------------\n"

/-- The symbol-table banner with the library-loading block. -/
def symbol_table_banner (arg_lib_name : String) : String :=
  "\n# SYMBOL TABLE --------------------------------------------------------\n\n_Path = _OS.path.join(_OS.path.dirname(_OS.path.abspath(__file__)), \x27"
  ++ arg_lib_name
  ++ "\x27)\ntry:\n\t_Cdll = _Ctypes.CDLL(_Path)\nexcept _Exception as _E:\n\t__builtins__.print(f\x27missing_library \x7b_E\x7d\x27, file=_Sys.stderr)\n\t_Sys.exit(1)\n"

/-- The fixed epilogue marker. -/
def output_epilogue : String := "\n# 🐉🐉🐉\n"

/-- `assemble_output_file(python_api, structure_list, symbol_table)`.
The source also reads the module globals `_version`, `_arg_lib_name`,
`sys.argv` and the wall clock `datetime.now()`; those ambient inputs are
explicit parameters here (`argv_str` is `' '.join(sys.argv)`, `now` the
rendered timestamp). -/
def assemble_output_file (python_api structure_list symbol_table : List String)
    (arg_lib_name argv_str now : String) : List String :=
  [s!"\x27\x27\x27 entanglement.py 0.0.3-dev {now}",
   s!"\tbindings for {arg_lib_name}",
   s!"\t{argv_str} \x27\x27\x27",
   output_prologue]
  ++ python_api
  ++ [structure_list_banner]
  ++ structure_list
  ++ [symbol_table_banner arg_lib_name]
  ++ symbol_table
  ++ [output_epilogue]

/-! ## Concrete fixtures for witnesses and counterexamples -/

def fund_int : CppType := .fundamental TypeKind.INT
def void_t : CppType := .fundamental TypeKind.VOID

/-- A function parameter cursor. -/
def mk_arg (name : String) (t : CppType) : Cursor :=
  .mk { kind := CursorKind.PARM_DECL, spelling := name } t void_t [] [] none none

/-- A free function cursor at `t.h:line`. -/
def mk_free_function (name mangled : String) (line : Nat) (args : List Cursor)
    (rt : CppType) : Cursor :=
  .mk { kind := CursorKind.FUNCTION_DECL, spelling := name, usr := "c:@F@" ++ mangled,
        mangled_name := mangled, displayname := name ++ "()",
        location := { file := "t.h", line := line, column := 1 } }
    void_t rt args [] none none

/-- A data-member cursor. -/
def mk_field (name : String) (t : CppType) : Cursor :=
  .mk { kind := CursorKind.FIELD_DECL, spelling := name } t void_t [] [] none none

/-- A virtual method cursor. -/
def mk_virtual_method (name mangled : String) : Cursor :=
  .mk { kind := CursorKind.CXX_METHOD, spelling := name, mangled_name := mangled,
        is_virtual_method := true, displayname := name ++ "()" }
    void_t void_t [] [] none none

/-- A base-specifier child referencing the base class cursor. -/
def mk_base_specifier (target : Cursor) : Cursor :=
  .mk { kind := CursorKind.CXX_BASE_SPECIFIER } void_t void_t [] [] (some target) none

/-- A class/struct cursor with the given children. -/
def mk_struct (name : String) (line : Nat) (size : Int) (children : List Cursor) : Cursor :=
  .mk { kind := CursorKind.STRUCT_DECL, spelling := name, usr := "c:@S@" ++ name,
        displayname := name, type_size := size,
        location := { file := "t.h", line := line, column := 1 } }
    void_t void_t [] children none none

/-- `struct B { int x; };` -/
def exBase : Cursor := mk_struct "B" 10 4 [mk_field "x" fund_int]

/-- `struct D : B { int y; };` -/
def exDerived : Cursor :=
  mk_struct "D" 20 8 [mk_base_specifier exBase, mk_field "y" fund_int]

/-- Symbols containing the two classes under their package paths. -/
def symbolsBD : Symbols := [("B", [exBase]), ("D", [exDerived])]

/-- `void f(B);` -/
def exFunB : Cursor :=
  mk_free_function "f" "_Z1f1B" 30 [mk_arg "b" (.declared exBase)] void_t

/-- `void f(D);` -/
def exFunD : Cursor :=
  mk_free_function "f" "_Z1f1D" 31 [mk_arg "d" (.declared exDerived)] void_t

/-- `void g(B);` and a second `void g(B);`-shaped candidate: same argument
count and same first-parameter class (inheritance generation 1). -/
def exFunG1 : Cursor :=
  mk_free_function "g" "_Z1g1B" 40 [mk_arg "a" (.declared exBase)] void_t

def exFunG2 : Cursor :=
  mk_free_function "g" "_Z1g1Bv2" 41 [mk_arg "b" (.declared exBase)] void_t

/-- `void h(int);` twice: same argument count, fundamental (generation 0)
first parameters. -/
def exFunH1 : Cursor := mk_free_function "h" "_Z1hi" 50 [mk_arg "a" fund_int] void_t
def exFunH2 : Cursor := mk_free_function "h" "_Z1hiv2" 51 [mk_arg "b" fund_int] void_t

/-- `void f0();`, `void f2(int,int);`, `void f4(int,int,int,int);` sharing
the logical name `k`. -/
def exFun0 : Cursor := mk_free_function "k" "_Z1kv" 60 [] void_t
def exFun2 : Cursor :=
  mk_free_function "k" "_Z1kii" 61 [mk_arg "a" fund_int, mk_arg "b" fund_int] void_t
def exFun4 : Cursor :=
  mk_free_function "k" "_Z1kiiii" 62
    [mk_arg "a" fund_int, mk_arg "b" fund_int, mk_arg "c" fund_int, mk_arg "d" fund_int]
    void_t

/-! ## Infrastructure lemmas about the dict model and grouping loops -/

theorem dict_get_set_self {κ α : Type} [DecidableEq κ] (m : List (κ × α)) (k : κ) (v : α) :
    dict_get (dict_set m k v) k = some v := by
  induction m with
  | nil => simp [dict_set, dict_get]
  | cons p rest ih =>
    obtain ⟨pk, pv⟩ := p
    by_cases h : pk = k
    · subst h
      simp [dict_set, dict_get]
    · simp [dict_set, dict_get, h, ih]

theorem dict_get_set_ne {κ α : Type} [DecidableEq κ] (m : List (κ × α)) (k k' : κ) (v : α)
    (h : k' ≠ k) : dict_get (dict_set m k v) k' = dict_get m k' := by
  induction m with
  | nil => simp [dict_set, dict_get, Ne.symm h]
  | cons p rest ih =>
    obtain ⟨pk, pv⟩ := p
    by_cases hp : pk = k
    · subst hp
      simp [dict_set, dict_get, Ne.symm h]
    · by_cases hp' : pk = k'
      · subst hp'
        simp [dict_set, dict_get, hp]
      · simp [dict_set, dict_get, hp, hp', ih]

theorem dict_get_none_iff {κ α : Type} [DecidableEq κ] (m : List (κ × α)) (k : κ) :
    dict_get m k = none ↔ k ∉ m.map Prod.fst := by
  induction m with
  | nil => simp [dict_get]
  | cons p rest ih =>
    obtain ⟨pk, pv⟩ := p
    by_cases h : pk = k
    · subst h
      simp [dict_get]
    · simp [dict_get, h, ih, Ne.symm h]

theorem map_fst_dict_set_of_mem {κ α : Type} [DecidableEq κ] (m : List (κ × α)) (k : κ) (v : α)
    (h : k ∈ m.map Prod.fst) : (dict_set m k v).map Prod.fst = m.map Prod.fst := by
  induction m with
  | nil => simp at h
  | cons p rest ih =>
    obtain ⟨pk, pv⟩ := p
    by_cases hp : pk = k
    · subst hp
      simp [dict_set]
    · simp only [List.map_cons, List.mem_cons] at h
      rcases h with h | h
      · exact absurd h.symm hp
      · simp [dict_set, hp, ih h]

theorem map_fst_dict_set_of_not_mem {κ α : Type} [DecidableEq κ] (m : List (κ × α)) (k : κ) (v : α)
    (h : k ∉ m.map Prod.fst) :
    (dict_set m k v).map Prod.fst = m.map Prod.fst ++ [k] := by
  induction m with
  | nil => simp [dict_set]
  | cons p rest ih =>
    obtain ⟨pk, pv⟩ := p
    simp only [List.map_cons, List.mem_cons] at h
    push_neg at h
    simp [dict_set, Ne.symm h.1, ih h.2]

theorem mem_of_dict_get_eq_some {κ α : Type} [DecidableEq κ] {m : List (κ × α)} {k : κ} {v : α}
    (h : dict_get m k = some v) : (k, v) ∈ m := by
  induction m with
  | nil => simp [dict_get] at h
  | cons p rest ih =>
    obtain ⟨pk, pv⟩ := p
    by_cases hp : pk = k
    · subst hp
      simp only [dict_get, if_pos rfl] at h
      injection h with h
      subst h
      exact List.mem_cons_self _ _
    · simp only [dict_get, if_neg hp] at h
      exact List.mem_cons_of_mem _ (ih h)

theorem dict_get_of_mem_nodup {κ α : Type} [DecidableEq κ] {m : List (κ × α)} {k : κ} {v : α}
    (hnd : (m.map Prod.fst).Nodup) (h : (k, v) ∈ m) : dict_get m k = some v := by
  induction m with
  | nil => simp at h
  | cons p rest ih =>
    obtain ⟨pk, pv⟩ := p
    simp only [List.map_cons, List.nodup_cons] at hnd
    rcases List.mem_cons.mp h with h | h
    · injection h with h1 h2
      subst h1
      subst h2
      simp [dict_get]
    · have hne : pk ≠ k := by
        intro he
        exact hnd.1 (he ▸ List.mem_map.mpr ⟨(k, v), h, rfl⟩)
      simp [dict_get, hne, ih hnd.2 h]

theorem map_fst_nodup_dict_set {κ α : Type} [DecidableEq κ] (m : List (κ × α)) (k : κ) (v : α)
    (hnd : (m.map Prod.fst).Nodup) : ((dict_set m k v).map Prod.fst).Nodup := by
  by_cases h : k ∈ m.map Prod.fst
  · rwa [map_fst_dict_set_of_mem m k v h]
  · rw [map_fst_dict_set_of_not_mem m k v h]
    exact List.Nodup.append hnd (List.nodup_singleton k)
      (fun x hx hk => by simp at hk; exact h (hk ▸ hx))

/-- The bucket of `k` after grouping: the initial bucket contents
followed by the kept elements whose key is `k`, in order. -/
theorem py_group_by_getD {α : Type} (key : α → Nat) (keep : α → Bool) :
    ∀ (l : List α) (m : List (Nat × List α)) (k : Nat),
    (dict_get (py_group_by key keep l m) k).getD [] =
      (dict_get m k).getD [] ++ l.filter (fun a => keep a && key a == k)
  | [], m, k => by simp [py_group_by]
  | a :: rest, m, k => by
    cases hk : keep a with
    | true =>
      by_cases hkey : key a = k
      · subst hkey
        cases hm : dict_get m (key a) with
        | none =>
          simp only [py_group_by, hk, if_pos, hm]
          rw [py_group_by_getD key keep rest _ (key a)]
          simp [dict_get_set_self, hm, hk]
        | some b =>
          simp only [py_group_by, hk, if_pos, hm]
          rw [py_group_by_getD key keep rest _ (key a)]
          simp [dict_get_set_self, hm, hk]
      · have hne : k ≠ key a := fun hh => hkey hh.symm
        have hbeq : (key a == k) = false := by
          simpa using hkey
        cases hm : dict_get m (key a) with
        | none =>
          simp only [py_group_by, hk, if_pos, hm]
          rw [py_group_by_getD key keep rest _ k]
          simp [dict_get_set_ne _ _ _ _ hne, hk, hbeq]
        | some b =>
          simp only [py_group_by, hk, if_pos, hm]
          rw [py_group_by_getD key keep rest _ k]
          simp [dict_get_set_ne _ _ _ _ hne, hk, hbeq]
    | false =>
      have hstep : py_group_by key keep (a :: rest) m = py_group_by key keep rest m := by
        simp [py_group_by, hk]
      rw [hstep, py_group_by_getD key keep rest m k]
      simp [hk]

/-- Whether the bucket of `k` exists after grouping. -/
theorem py_group_by_isSome {α : Type} (key : α → Nat) (keep : α → Bool) :
    ∀ (l : List α) (m : List (Nat × List α)) (k : Nat),
    (dict_get (py_group_by key keep l m) k).isSome =
      ((dict_get m k).isSome || l.any (fun a => keep a && key a == k))
  | [], m, k => by simp [py_group_by]
  | a :: rest, m, k => by
    cases hk : keep a with
    | true =>
      by_cases hkey : key a = k
      · subst hkey
        cases hm : dict_get m (key a) with
        | none =>
          simp only [py_group_by, hk, if_pos, hm]
          rw [py_group_by_isSome key keep rest _ (key a)]
          simp [dict_get_set_self, hk]
        | some b =>
          simp only [py_group_by, hk, if_pos, hm]
          rw [py_group_by_isSome key keep rest _ (key a)]
          simp [dict_get_set_self, hk]
      · have hne : k ≠ key a := fun hh => hkey hh.symm
        have hbeq : (key a == k) = false := by
          simpa using hkey
        cases hm : dict_get m (key a) with
        | none =>
          simp only [py_group_by, hk, if_pos, hm]
          rw [py_group_by_isSome key keep rest _ k]
          simp [dict_get_set_ne _ _ _ _ hne, hk, hbeq]
        | some b =>
          simp only [py_group_by, hk, if_pos, hm]
          rw [py_group_by_isSome key keep rest _ k]
          simp [dict_get_set_ne _ _ _ _ hne, hk, hbeq]
    | false =>
      have hstep : py_group_by key keep (a :: rest) m = py_group_by key keep rest m := by
        simp [py_group_by, hk]
      rw [hstep, py_group_by_isSome key keep rest m k]
      simp [hk]

/-- Grouping preserves distinctness of the dict keys. -/
theorem py_group_by_keys_nodup {α : Type} (key : α → Nat) (keep : α → Bool) :
    ∀ (l : List α) (m : List (Nat × List α)),
    (m.map Prod.fst).Nodup → ((py_group_by key keep l m).map Prod.fst).Nodup
  | [], m, h => by simpa [py_group_by] using h
  | a :: rest, m, h => by
    cases hk : keep a with
    | true =>
      cases hm : dict_get m (key a) with
      | none =>
        simp only [py_group_by, hk, if_pos, hm]
        exact py_group_by_keys_nodup key keep rest _ (map_fst_nodup_dict_set _ _ _ h)
      | some b =>
        simp only [py_group_by, hk, if_pos, hm]
        exact py_group_by_keys_nodup key keep rest _ (map_fst_nodup_dict_set _ _ _ h)
    | false =>
      have hstep : py_group_by key keep (a :: rest) m = py_group_by key keep rest m := by
        simp [py_group_by, hk]
      rw [hstep]
      exact py_group_by_keys_nodup key keep rest m h

theorem ndict_sorted_perm {α : Type} (d : List (Nat × α)) : (ndict_sorted d).Perm d :=
  List.perm_insertionSort _ d

theorem ndict_sorted_pairwise {α : Type} (d : List (Nat × α)) :
    (ndict_sorted d).Pairwise (fun a b => a.1 ≤ b.1) := by
  haveI : IsTotal (Nat × α) (fun a b => a.1 ≤ b.1) := ⟨fun a b => Nat.le_total a.1 b.1⟩
  haveI : IsTrans (Nat × α) (fun a b => a.1 ≤ b.1) :=
    ⟨fun _ _ _ hab hbc => Nat.le_trans hab hbc⟩
  exact List.sorted_insertionSort _ d

theorem ndict_sorted_rev_pairwise {α : Type} (d : List (Nat × α)) :
    (ndict_sorted_rev d).Pairwise (fun a b => b.1 ≤ a.1) := by
  rw [ndict_sorted_rev, List.pairwise_reverse]
  exact ndict_sorted_pairwise d

theorem mem_ndict_sorted {α : Type} {d : List (Nat × α)} {p : Nat × α} :
    p ∈ ndict_sorted d ↔ p ∈ d :=
  (ndict_sorted_perm d).mem_iff

theorem mem_ndict_sorted_rev {α : Type} {d : List (Nat × α)} {p : Nat × α} :
    p ∈ ndict_sorted_rev d ↔ p ∈ d := by
  rw [ndict_sorted_rev, List.mem_reverse]
  exact mem_ndict_sorted

theorem ndict_sorted_keys_nodup {α : Type} (d : List (Nat × α))
    (h : (d.map Prod.fst).Nodup) : ((ndict_sorted d).map Prod.fst).Nodup :=
  (((ndict_sorted_perm d).map Prod.fst).nodup_iff).mpr h

theorem ndict_sorted_rev_keys_nodup {α : Type} (d : List (Nat × α))
    (h : (d.map Prod.fst).Nodup) : ((ndict_sorted_rev d).map Prod.fst).Nodup := by
  rw [ndict_sorted_rev, List.map_reverse, List.nodup_reverse]
  exact ndict_sorted_keys_nodup d h

/-! ## Lemmas about the generated overload selector -/

theorem build_branches_ok_map_cursor (t s : String) (sym : Symbols) :
    ∀ (l : List Cursor) (k : Nat) (bs : List SelBranch),
    build_branches t s sym l k = .ok bs → bs.map (fun b => b.cursor) = l
  | [], k, bs, h => by
    simp only [build_branches] at h
    injection h with h
    subst h
    rfl
  | cursor :: rest, k, bs, h => by
    simp only [build_branches, Bind.bind, Except.bind, Functor.map, Except.map] at h
    cases he : emit_ctypes_function_args cursor sym true with
    | error e => rw [he] at h; simp at h
    | ok arg_str =>
      rw [he] at h
      by_cases hc : k > 1
      · simp only [hc, if_pos] at h
        cases hp : arg0_isinstance_parts cursor sym true with
        | error e => rw [hp] at h; simp at h
        | ok parts =>
          rw [hp] at h
          cases hr : build_branches t s sym rest (k - 1) with
          | error e => rw [hr] at h; simp at h
          | ok bs' =>
            rw [hr] at h
            injection h with h
            subst h
            simp [build_branches_ok_map_cursor t s sym rest (k - 1) bs' hr]
      · simp only [hc, if_neg] at h
        cases hr : build_branches t s sym rest k with
        | error e => rw [hr] at h; simp at h
        | ok bs' =>
          rw [hr] at h
          injection h with h
          subst h
          simp [build_branches_ok_map_cursor t s sym rest k bs' hr]

/-- A one-candidate bucket emits a single unconditional branch. -/
theorem build_branches_singleton {t s : String} {sym : Symbols} {c : Cursor}
    {bs : List SelBranch} (h : build_branches t s sym [c] 1 = .ok bs) :
    ∃ lines, bs = [{ cursor := c, guard := none, lines := lines }] := by
  simp only [build_branches, Bind.bind, Except.bind, Functor.map, Except.map] at h
  cases he : emit_ctypes_function_args c sym true with
  | error e => rw [he] at h; simp at h
  | ok arg_str =>
    rw [he] at h
    simp only [gt_iff_lt, lt_irrefl, if_neg, not_false_iff] at h
    injection h with h
    exact ⟨_, h.symm⟩

/-- The generation bucket of `0`, with the map seeded `{0: []}`, holds
exactly the candidates of first-argument generation `0`. -/
theorem gen0_bucket (g : List Cursor) :
    (dict_get (group_by_generation g [(0, [])]) 0).getD [] =
      g.filter (fun c => arg0_generation c == 0) := by
  have h := py_group_by_getD arg0_generation (fun _ => true) g [(0, [])] 0
  simpa [group_by_generation, dict_get] using h

/-- Any generation bucket, with the map seeded `{0: []}`, holds exactly
the candidates of that generation. -/
theorem gen_bucket (g : List Cursor) (k : Nat) :
    (dict_get (group_by_generation g [(0, [])]) k).getD [] =
      g.filter (fun c => arg0_generation c == k) := by
  have h := py_group_by_getD arg0_generation (fun _ => true) g [(0, [])] k
  by_cases hk : k = 0
  · subst hk
    simpa [group_by_generation, dict_get] using h
  · simpa [group_by_generation, dict_get, Ne.symm hk, hk] using h

/-- Inversion of a successful `build_case`. -/
theorem build_case_ok_inv {t s : String} {sym : Symbols} {n : Nat} {g : List Cursor}
    {sc : SelCase} (h : build_case t s sym n g = .ok sc) :
    sc.arg_count = n ∧
    build_branches t s sym
      ((ndict_sorted_rev (group_by_generation g [(0, [])])).flatMap (fun p => p.2))
      g.length = .ok sc.branches := by
  simp only [build_case, Bind.bind, Except.bind] at h
  cases hg : (dict_get (group_by_generation g [(0, [])]) 0).getD [] with
  | cons c0 tail =>
    cases tail with
    | cons c1 tail2 =>
      rw [hg] at h
      simp at h
    | nil =>
      rw [hg] at h
      cases hb : build_branches t s sym
          ((ndict_sorted_rev (group_by_generation g [(0, [])])).flatMap (fun p => p.2))
          g.length with
      | error e => rw [hb] at h; simp at h
      | ok bs =>
        rw [hb] at h
        simp only [pure, Except.pure, Except.ok.injEq] at h
        subst h
        exact ⟨rfl, rfl⟩
  | nil =>
    rw [hg] at h
    cases hb : build_branches t s sym
        ((ndict_sorted_rev (group_by_generation g [(0, [])])).flatMap (fun p => p.2))
        g.length with
    | error e => rw [hb] at h; simp at h
    | ok bs =>
      rw [hb] at h
      simp only [pure, Except.pure, Except.ok.injEq] at h
      subst h
      exact ⟨rfl, rfl⟩

/-- A bucket holding two candidates of first-argument generation `0` is a
fatal code-generation error. -/
theorem build_case_gen0_error {t s : String} {sym : Symbols} {n : Nat} {g : List Cursor}
    (h2 : 2 ≤ (g.filter (fun c => arg0_generation c == 0)).length) :
    ∀ sc, build_case t s sym n g ≠ .ok sc := by
  intro sc h
  have hb := gen0_bucket g
  cases hl : g.filter (fun c => arg0_generation c == 0) with
  | nil => rw [hl] at h2; simp at h2
  | cons c0 tail =>
    cases tail with
    | nil => rw [hl] at h2; simp at h2
    | cons c1 tail2 =>
      rw [hl] at hb
      simp only [build_case, Bind.bind, Except.bind, hb] at h
      simp at h

theorem build_cases_ok_forall₂ {t s : String} {sym : Symbols} :
    ∀ {pairs : List (Nat × List Cursor)} {cs : List SelCase},
    build_cases t s sym pairs = .ok cs →
    List.Forall₂ (fun p sc => build_case t s sym p.1 p.2 = .ok sc) pairs cs := by
  intro pairs
  induction pairs with
  | nil =>
    intro cs h
    simp only [build_cases] at h
    injection h with h
    subst h
    exact .nil
  | cons p rest ih =>
    intro cs h
    obtain ⟨pn, pg⟩ := p
    simp only [build_cases, Bind.bind, Except.bind] at h
    cases hc : build_case t s sym pn pg with
    | error e => rw [hc] at h; simp at h
    | ok sc0 =>
      rw [hc] at h
      cases hr : build_cases t s sym rest with
      | error e => rw [hr] at h; simp at h
      | ok cs' =>
        rw [hr] at h
        injection h with h
        subst h
        exact .cons hc (ih hr)

theorem forall₂_mem_right {α β : Type} {R : α → β → Prop} :
    ∀ {l1 : List α} {l2 : List β}, List.Forall₂ R l1 l2 →
    ∀ {b}, b ∈ l2 → ∃ a ∈ l1, R a b := by
  intro l1 l2 h
  induction h with
  | nil => intro b hb; simp at hb
  | cons hR hrest ih =>
    intro b hb
    rcases List.mem_cons.mp hb with hb | hb
    · subst hb
      exact ⟨_, List.mem_cons_self _ _, hR⟩
    · rcases ih hb with ⟨a, ha, hab⟩
      exact ⟨a, List.mem_cons_of_mem _ ha, hab⟩

/-- Inversion of a successful `build_selector`: the cases were built by
`build_cases` over the sorted argument-count buckets. -/
theorem build_selector_ok_inv {tabs : String} {o : List Cursor} {sym : Symbols}
    {sel : Selector} (h : build_selector tabs o sym = .ok sel) :
    build_cases tabs (if !(o.any is_staticmethod) then "_Ctypes.byref(self)," else "")
      sym (ndict_sorted (group_overloads_by_arg_count o [])) = .ok sel.cases := by
  cases o with
  | nil =>
    simp [build_selector, Bind.bind, Except.bind] at h
  | cons c rest =>
    simp only [build_selector, Bind.bind, Except.bind] at h
    cases hd : get_dunder_name c with
    | error e => rw [hd] at h; simp at h
    | ok fname =>
      rw [hd] at h
      cases hcs : build_cases tabs
          (if !((c :: rest).any is_staticmethod) then "_Ctypes.byref(self)," else "")
          sym (ndict_sorted (group_overloads_by_arg_count (c :: rest) [])) with
      | error e => rw [hcs] at h; simp at h
      | ok cs =>
        rw [hcs] at h
        simp only [pure, Except.pure, Except.ok.injEq] at h
        subst h
        rfl

/-- Buckets of the argument-count map (built from the empty dict) hold
exactly the non-pure-virtual overloads of that count. -/
theorem arg_count_bucket {o : List Cursor} {k : Nat} {lst : List Cursor}
    (h : (k, lst) ∈ ndict_sorted (group_overloads_by_arg_count o [])) :
    lst = o.filter (fun c => !c.data.is_pure_virtual_method && c.args.length == k) := by
  have hmem : (k, lst) ∈ group_overloads_by_arg_count o [] := mem_ndict_sorted.mp h
  have hnd : ((group_overloads_by_arg_count o []).map Prod.fst).Nodup := by
    apply py_group_by_keys_nodup
    simp
  have hget := dict_get_of_mem_nodup hnd hmem
  have hgd := py_group_by_getD (fun c => c.args.length)
    (fun c => !c.data.is_pure_virtual_method) o [] k
  rw [group_overloads_by_arg_count] at hget
  rw [hget] at hgd
  simpa [dict_get] using hgd

/-- If some non-pure-virtual overload has argument count `k`, the
argument-count map has a bucket for `k`. -/
theorem arg_count_bucket_exists {o : List Cursor} {k : Nat}
    (h : o.filter (fun c => !c.data.is_pure_virtual_method && c.args.length == k) ≠ []) :
    (k, o.filter (fun c => !c.data.is_pure_virtual_method && c.args.length == k)) ∈
      ndict_sorted (group_overloads_by_arg_count o []) := by
  have hany : o.any (fun c => !c.data.is_pure_virtual_method && c.args.length == k) = true := by
    cases hf : o.filter (fun c => !c.data.is_pure_virtual_method && c.args.length == k) with
    | nil => exact absurd hf h
    | cons c rest =>
      have hc : c ∈ o.filter (fun c => !c.data.is_pure_virtual_method && c.args.length == k) := by
        rw [hf]; exact List.mem_cons_self _ _
      rcases List.mem_filter.mp hc with ⟨hco, hcp⟩
      exact List.any_eq_true.mpr ⟨c, hco, hcp⟩
  have hsome := py_group_by_isSome (fun c => c.args.length)
    (fun c => !c.data.is_pure_virtual_method) o [] k
  rw [hany] at hsome
  simp only [dict_get, Option.isSome_none, Bool.false_or] at hsome
  cases hget : dict_get (group_overloads_by_arg_count o []) k with
  | none =>
    rw [group_overloads_by_arg_count] at hget
    rw [hget] at hsome
    simp at hsome
  | some lst =>
    have hlst : lst = o.filter (fun c => !c.data.is_pure_virtual_method && c.args.length == k) := by
      have hgd := py_group_by_getD (fun c => c.args.length)
        (fun c => !c.data.is_pure_virtual_method) o [] k
      rw [group_overloads_by_arg_count] at hget
      rw [hget] at hgd
      simpa [dict_get] using hgd
    rw [← hlst]
    exact mem_ndict_sorted.mpr (mem_of_dict_get_eq_some hget)

/-- The emission order of a one-candidate bucket is just that candidate. -/
theorem ordered_single (c : Cursor) :
    ((ndict_sorted_rev (group_by_generation [c] [(0, [])])).flatMap (fun p => p.2)) = [c] := by
  by_cases hk : arg0_generation c = 0
  · simp [group_by_generation, py_group_by, dict_get, dict_set, hk,
      ndict_sorted_rev, ndict_sorted, List.insertionSort, List.orderedInsert]
  · simp [group_by_generation, py_group_by, dict_get, dict_set, hk, Ne.symm hk,
      ndict_sorted_rev, ndict_sorted, List.insertionSort, List.orderedInsert,
      Nat.zero_le]

/-- The emission order of an empty bucket is empty. -/
theorem ordered_nil :
    ((ndict_sorted_rev (group_by_generation [] [(0, [])])).flatMap (fun p => p.2)) = [] := rfl

/-- Scanning the generated `match`: a one-candidate bucket dispatches the
call to its candidate. -/
theorem eval_cases_call {t s : String} {sym : Symbols} :
    ∀ {pairs : List (Nat × List Cursor)} {cs : List SelCase},
    List.Forall₂ (fun p sc => build_case t s sym p.1 p.2 = .ok sc) pairs cs →
    (pairs.map Prod.fst).Nodup →
    ∀ {n : Nat} {c : Cursor} (obj : Option Cursor),
    (n, [c]) ∈ pairs →
    eval_cases obj n cs = .call c := by
  intro pairs cs hf
  induction hf with
  | nil => intro _ _ _ _ hmem; simp at hmem
  | @cons p sc ps cs' hR hrest ih =>
    intro hnd n c obj hmem
    simp only [List.map_cons, List.nodup_cons] at hnd
    rcases List.mem_cons.mp hmem with hmem | hmem
    · have hp1 : p.1 = n := by rw [← hmem]
      have hp2 : p.2 = [c] := by rw [← hmem]
      rcases build_case_ok_inv (hp1 ▸ hp2 ▸ hR) with ⟨hac, hbb⟩
      rw [ordered_single c] at hbb
      rcases build_branches_singleton hbb with ⟨lines, hbs⟩
      simp only [eval_cases, hac, if_pos]
      rw [hbs]
      cases obj <;> simp [eval_branches]
    · have hne : sc.arg_count ≠ n := by
        rcases build_case_ok_inv hR with ⟨hac, _⟩
        rw [hac]
        intro he
        exact hnd.1 (he ▸ List.mem_map.mpr ⟨(n, [c]), hmem, rfl⟩)
      simp only [eval_cases, hne, if_neg]
      exact ih hnd.2 obj hmem

/-- Scanning the generated `match`: an argument count whose bucket is
missing or empty falls through to the loud `case _:` fallback. -/
theorem eval_cases_miss {t s : String} {sym : Symbols} :
    ∀ {pairs : List (Nat × List Cursor)} {cs : List SelCase},
    List.Forall₂ (fun p sc => build_case t s sym p.1 p.2 = .ok sc) pairs cs →
    ∀ {n : Nat} (obj : Option Cursor),
    (∀ lst, (n, lst) ∈ pairs → lst = []) →
    eval_cases obj n cs = .arg_count_error n := by
  intro pairs cs hf
  induction hf with
  | nil => intro n obj _; rfl
  | @cons p sc ps cs' hR hrest ih =>
    intro n obj hmt
    by_cases hp1 : p.1 = n
    · have hp2 : p.2 = [] := hmt p.2 (by rw [← hp1]; exact List.mem_cons_self _ _)
      rcases build_case_ok_inv (hp1 ▸ hp2 ▸ hR) with ⟨hac, hbb⟩
      rw [ordered_nil] at hbb
      simp only [build_branches] at hbb
      injection hbb with hbb
      simp only [eval_cases, hac, if_pos]
      rw [← hbb]
      rfl
    · have hne : sc.arg_count ≠ n := by
        rcases build_case_ok_inv hR with ⟨hac, _⟩
        rw [hac]; exact hp1
      simp only [eval_cases, hne, if_neg]
      exact ih obj (fun lst hm => hmt lst (List.mem_cons_of_mem _ hm))

theorem pairwise_flatMap_of {α β : Type} {R : β → β → Prop} (f : α → List β) :
    ∀ {l : List α},
    l.Pairwise (fun a b => ∀ x ∈ f a, ∀ y ∈ f b, R x y) →
    (∀ a ∈ l, (f a).Pairwise R) →
    (l.flatMap f).Pairwise R := by
  intro l
  induction l with
  | nil => intro _ _; simp
  | cons a rest ih =>
    intro hcross hwithin
    rw [List.flatMap_cons, List.pairwise_append]
    refine ⟨hwithin a (List.mem_cons_self _ _), ih (List.Pairwise.of_cons hcross)
      (fun b hb => hwithin b (List.mem_cons_of_mem _ hb)), ?_⟩
    intro x hx y hy
    rcases List.mem_flatMap.mp hy with ⟨b, hb, hyb⟩
    exact (List.pairwise_cons.mp hcross).1 b hb x hx y hyb

/-- All candidates in the descending-generation emission order of a
bucket carry the generation of their group, so the emitted order is
non-increasing in generation (strictly decreasing across groups). -/
theorem ordered_gen_pairwise (g : List Cursor) :
    (((ndict_sorted_rev (group_by_generation g [(0, [])])).flatMap (fun p => p.2)).map
      arg0_generation).Pairwise (fun a b => a ≥ b) := by
  rw [List.pairwise_map]
  have hnd : ((group_by_generation g [(0, [])]).map Prod.fst).Nodup := by
    apply py_group_by_keys_nodup
    simp
  have hval : ∀ p ∈ ndict_sorted_rev (group_by_generation g [(0, [])]),
      ∀ c ∈ p.2, arg0_generation c = p.1 := by
    intro p hp c hc
    obtain ⟨pk, plst⟩ := p
    have hmem : (pk, plst) ∈ group_by_generation g [(0, [])] := mem_ndict_sorted_rev.mp hp
    have hget := dict_get_of_mem_nodup hnd hmem
    have hb := gen_bucket g pk
    rw [hget] at hb
    simp only [Option.getD_some] at hb
    subst hb
    rcases List.mem_filter.mp hc with ⟨_, hkey⟩
    simpa using hkey
  have hrev := ndict_sorted_rev_pairwise (group_by_generation g [(0, [])])
  apply pairwise_flatMap_of
  · refine List.Pairwise.imp_of_mem ?_ hrev
    intro p q hp hq hle x hx y hy
    rw [hval p hp x hx, hval q hq y hy]
    exact hle
  · intro p hp
    have hall : ∀ c ∈ p.2, arg0_generation c = p.1 := hval p hp
    apply List.pairwise_of_forall_mem_list
    intro x hx y hy
    rw [hall x hx, hall y hy]

theorem forall₂_mem_left {α β : Type} {R : α → β → Prop} :
    ∀ {l1 : List α} {l2 : List β}, List.Forall₂ R l1 l2 →
    ∀ {a}, a ∈ l1 → ∃ b ∈ l2, R a b := by
  intro l1 l2 h
  induction h with
  | nil => intro a ha; simp at ha
  | cons hR hrest ih =>
    intro a ha
    rcases List.mem_cons.mp ha with ha | ha
    · subst ha
      exact ⟨_, List.mem_cons_self _ _, hR⟩
    · rcases ih ha with ⟨b, hb, hab⟩
      exact ⟨b, List.mem_cons_of_mem _ hb, hab⟩

/-! ## Claim theorems for the overload selector -/

/-- The concrete selector generated for the count-dispatch scenario
`k()`, `k(int,int)`, `k(int,int,int,int)`. -/
def exSelectorCount : Selector :=
  ((build_selector "" [exFun0, exFun2, exFun4] []).toOption).getD ⟨[], [], []⟩

/-- The concrete selector generated for the `f(B)` / `f(D)` subtype
scenario. -/
def exSelectorSubtype : Selector :=
  ((build_selector "" [exFunB, exFunD] symbolsBD).toOption).getD ⟨[], [], []⟩

/-- **C3**: whenever the generated overload selector is emitted, a call
with `n` arguments dispatches to the unique non-pure-virtual candidate
declared with `n` arguments when that bucket has exactly one candidate,
and a call whose argument count matches no candidate's count reaches the
final fallback branch that fails loudly naming the unmatched count. -/
theorem overload_selector_dispatch_by_count
    (tabs : String) (overloads : List Cursor) (symbols : Symbols) (sel : Selector)
    (hbuild : build_selector tabs overloads symbols = .ok sel)
    (n : Nat) (obj : Option Cursor) :
    (∀ c : Cursor,
      overloads.filter (fun c => !c.data.is_pure_virtual_method && c.args.length == n) = [c] →
      eval_selector sel obj n = .call c) ∧
    (overloads.filter (fun c => !c.data.is_pure_virtual_method && c.args.length == n) = [] →
      eval_selector sel obj n = .arg_count_error n) := by
  have hcs := build_cases_ok_forall₂ (build_selector_ok_inv hbuild)
  have hnd : ((ndict_sorted (group_overloads_by_arg_count overloads [])).map Prod.fst).Nodup := by
    apply ndict_sorted_keys_nodup
    apply py_group_by_keys_nodup
    simp
  constructor
  · intro c hone
    have hmem := arg_count_bucket_exists (o := overloads) (k := n) (by rw [hone]; simp)
    rw [hone] at hmem
    exact eval_cases_call hcs hnd obj hmem
  · intro hnone
    apply eval_cases_miss hcs obj
    intro lst hmem
    have hl := arg_count_bucket hmem
    rw [hnone] at hl
    exact hl

/-- Witness for C3 on the spec's scenario: 2 arguments reach `k(int,int)`
and 1 argument reaches the loud fallback. -/
theorem overload_selector_dispatch_by_count_witness :
    eval_selector exSelectorCount none 2 = .call exFun2 ∧
    eval_selector exSelectorCount none 1 = .arg_count_error 1 :=
  ⟨(overload_selector_dispatch_by_count "" [exFun0, exFun2, exFun4] [] exSelectorCount
      rfl 2 none).1 exFun2 rfl,
   (overload_selector_dispatch_by_count "" [exFun0, exFun2, exFun4] [] exSelectorCount
      rfl 1 none).2 rfl⟩

/-- **C1** (amended): only generation-`0` collisions are fatal. If the
generation-`0` sublist of a bucket (in encounter order) holds at least
two candidates `c0 :: c1 :: rest`, the bucket's emission fails with
exactly the error whose text is the source location of `c0` — the FIRST
generation-`0` candidate, `inheritance_generation_map[0][0]` in the
source — followed by the disambiguation message, and the whole selector
emission fails, so no selector is emitted. -/
theorem overload_ambiguity_gen0_fatal
    (tabs : String) (overloads : List Cursor) (symbols : Symbols) (n : Nat)
    (c0 c1 : Cursor) (rest : List Cursor)
    (hg0 : (overloads.filter
        (fun c => !c.data.is_pure_virtual_method && c.args.length == n)).filter
        (fun c => arg0_generation c == 0) = c0 :: c1 :: rest) :
    (∀ s : String, build_case tabs s symbols n
        (overloads.filter (fun c => !c.data.is_pure_virtual_method && c.args.length == n)) =
      .error (raise_error_msg c0
        "Unable to disambiguate overloaded functions by arg count and class of the first arg.")) ∧
    ∃ e, build_selector tabs overloads symbols = .error e := by
  constructor
  · intro s
    have hb := gen0_bucket (overloads.filter
        (fun c => !c.data.is_pure_virtual_method && c.args.length == n))
    rw [hg0] at hb
    simp only [build_case, Bind.bind, Except.bind, hb]
  · cases hb : build_selector tabs overloads symbols with
    | error e => exact ⟨e, rfl⟩
    | ok sel =>
      exfalso
      have hcol : 2 ≤ ((overloads.filter
          (fun c => !c.data.is_pure_virtual_method && c.args.length == n)).filter
          (fun c => arg0_generation c == 0)).length := by
        rw [hg0]
        simp
      have hcs := build_cases_ok_forall₂ (build_selector_ok_inv hb)
      have hfne : overloads.filter
          (fun c => !c.data.is_pure_virtual_method && c.args.length == n) ≠ [] := by
        intro hempty
        rw [hempty] at hg0
        simp at hg0
      have hmem := arg_count_bucket_exists hfne
      rcases forall₂_mem_left hcs hmem with ⟨sc, _, hcase⟩
      exact build_case_gen0_error hcol sc hcase

/-- Witness for the amended C1: two `h(int)` candidates (generation 0)
abort the bucket with the error carrying `exFunH1`'s location — the
first of the two — and selector generation fails. -/
theorem overload_ambiguity_gen0_fatal_witness :
    build_case "" "_Ctypes.byref(self)," [] 1
        ([exFunH1, exFunH2].filter
          (fun c => !c.data.is_pure_virtual_method && c.args.length == 1)) =
      .error (raise_error_msg exFunH1
        "Unable to disambiguate overloaded functions by arg count and class of the first arg.") ∧
    ∃ e, build_selector "" [exFunH1, exFunH2] [] = .error e :=
  ⟨(overload_ambiguity_gen0_fatal "" [exFunH1, exFunH2] [] 1 exFunH1 exFunH2 []
      rfl).1 "_Ctypes.byref(self),",
   (overload_ambiguity_gen0_fatal "" [exFunH1, exFunH2] [] 1 exFunH1 exFunH2 []
      rfl).2⟩

/-- **C1** counterexample: two candidates with the same argument count
and the same first-parameter inheritance generation (both take class `B`,
generation 1) do **not** abort code generation: a selector is emitted,
and a call with a `B` instance silently dispatches to the first
candidate. -/
theorem overload_ambiguity_counterexample :
    arg0_generation exFunG1 = 1 ∧ arg0_generation exFunG2 = 1 ∧
    exFunG1.args.length = 1 ∧ exFunG2.args.length = 1 ∧
    (build_selector "" [exFunG1, exFunG2] symbolsBD).isOk = true ∧
    (build_selector "" [exFunG1, exFunG2] symbolsBD).map
      (fun sel => eval_selector sel (some exBase) 1) = .ok (.call exFunG1) :=
  ⟨rfl, rfl, rfl, rfl, rfl, rfl⟩

/-- **C4**: in every emitted bucket the run-time type checks are ordered
by non-increasing first-argument inheritance generation (most-derived
first; strictly decreasing across generation groups), and in the
`Base`/`Derived` scenario a `Derived` instance dispatches to the
`Derived` candidate while an exact `Base` instance dispatches to the
`Base` candidate. -/
theorem overload_selector_generation_order :
    (∀ (tabs : String) (overloads : List Cursor) (symbols : Symbols) (sel : Selector),
      build_selector tabs overloads symbols = .ok sel →
      ∀ sc ∈ sel.cases,
        (sc.branches.map (fun b => arg0_generation b.cursor)).Pairwise (fun a b => a ≥ b)) ∧
    (∀ sel, build_selector "" [exFunB, exFunD] symbolsBD = .ok sel →
      eval_selector sel (some exDerived) 1 = .call exFunD ∧
      eval_selector sel (some exBase) 1 = .call exFunB) := by
  constructor
  · intro tabs o sym sel hb sc hsc
    have hcs := build_cases_ok_forall₂ (build_selector_ok_inv hb)
    rcases forall₂_mem_right hcs hsc with ⟨p, _, hcase⟩
    rcases build_case_ok_inv hcase with ⟨_, hbb⟩
    have hmap := build_branches_ok_map_cursor _ _ _ _ _ _ hbb
    have hord := ordered_gen_pairwise p.2
    rw [← hmap, List.map_map] at hord
    exact hord
  · intro sel hb
    have hS : build_selector "" [exFunB, exFunD] symbolsBD = .ok exSelectorSubtype := rfl
    rw [hS] at hb
    injection hb with hb
    subst hb
    exact ⟨rfl, rfl⟩

/-- Witness for C4 on the spec's scenario. -/
theorem overload_selector_generation_order_witness :
    eval_selector exSelectorSubtype (some exDerived) 1 = .call exFunD ∧
    eval_selector exSelectorSubtype (some exBase) 1 = .call exFunB :=
  overload_selector_generation_order.2 exSelectorSubtype rfl

/-! ## Claim theorem for pointer depth -/

/-- Whether a canonical descriptor is a pointer or reference. -/
def is_pointer_or_reference : CppType → Bool
  | .pointer _ => true
  | .lvalue_reference _ => true
  | .rvalue_reference _ => true
  | _ => false

/-- **C5**: a canonical pointer/reference whose pointee is itself a
pointer or reference is a fatal type error for every purpose; the type
mapper never returns a type string for it. -/
theorem pointer_depth_two_fatal (cursor : Cursor) (t : CppType) (symbols : Symbols)
    (result_kind : type_string_kind)
    (h1 : is_pointer_or_reference t = true)
    (h2 : is_pointer_or_reference t.get_pointee = true) :
    calculate_type_string cursor t symbols result_kind =
      .error (raise_error_msg cursor "Only one pointer or reference allowed in an API type.") := by
  cases t with
  | fundamental k => simp [is_pointer_or_reference] at h1
  | constant_array e n => simp [is_pointer_or_reference] at h1
  | declared d => simp [is_pointer_or_reference] at h1
  | pointer p =>
    cases p <;> simp_all [calculate_type_string, pointer_type_string,
      CppType.get_pointee, CppType.get_canonical, CppType.kind, is_pointer_or_reference]
  | lvalue_reference p =>
    cases p <;> simp_all [calculate_type_string, pointer_type_string,
      CppType.get_pointee, CppType.get_canonical, CppType.kind, is_pointer_or_reference]
  | rvalue_reference p =>
    cases p <;> simp_all [calculate_type_string, pointer_type_string,
      CppType.get_pointee, CppType.get_canonical, CppType.kind, is_pointer_or_reference]

/-- Witness for C5: `int**` as an argument hint. -/
theorem pointer_depth_two_fatal_witness :
    calculate_type_string exFunB (.pointer (.pointer fund_int)) [] type_string_kind.arg_hint =
      .error (raise_error_msg exFunB "Only one pointer or reference allowed in an API type.") :=
  pointer_depth_two_fatal exFunB (.pointer (.pointer fund_int)) [] type_string_kind.arg_hint
    rfl rfl

/-! ## Claim theorems for output determinism -/

/-- **C2** counterexample: two runs of the generator over identical
inputs at different wall-clock times produce different bytes, because the
generated-file header embeds `datetime.now()`. -/
theorem assemble_output_timestamp_counterexample :
    assemble_output_file [] [] [] "lib.so" "entanglement.py lib.so a.h out.py"
        "2025-01-01 00:00:00.000001" ≠
      assemble_output_file [] [] [] "lib.so" "entanglement.py lib.so a.h out.py"
        "2025-01-01 00:00:00.000002" := by
  decide

/-- **C2** (amended): the final assembly step is deterministic modulo
the timestamp: for fixed section lists, library name and argv string,
every line after the first is independent of the timestamp argument,
and the first line is the fixed header prefix followed by the run's
timestamp. (Full byte-identity across runs fails twice over: the
timestamp itself, and the `_ID` names of anonymous cursors, which the
source derives from Python's process-salted `hash()` — see
`model_str_hash` — so this theorem speaks only of the assembly step,
not of the pipeline from headers and flags.) -/
theorem assemble_output_deterministic_mod_timestamp
    (python_api structure_list symbol_table : List String)
    (lib argv now1 now2 : String) :
    (assemble_output_file python_api structure_list symbol_table lib argv now1).tail =
      (assemble_output_file python_api structure_list symbol_table lib argv now2).tail ∧
    (assemble_output_file python_api structure_list symbol_table lib argv now1).head? =
      some s!"\x27\x27\x27 entanglement.py 0.0.3-dev {now1}" :=
  ⟨rfl, rfl⟩

/-! ## Claim theorem for the vtable-slot rule (code bug) -/

/-- `struct A { virtual void va(); int a; };` -/
def exVA : Cursor :=
  mk_struct "A" 110 16 [mk_virtual_method "va" "_ZN1A2vaEv", mk_field "a" fund_int]

/-- `struct B : A { int b; };` -/
def exVB : Cursor := mk_struct "VB" 111 16 [mk_base_specifier exVA, mk_field "b" fund_int]

/-- `struct C : B { virtual void vc(); int c; };` -/
def exVC : Cursor :=
  mk_struct "VC" 112 24
    [mk_base_specifier exVB, mk_virtual_method "vc" "_ZN1C2vcEv", mk_field "c" fund_int]

/-- Whether a class declares at least one virtual member of its own. -/
def declares_virtual_member (c : Cursor) : Bool := c.children.any is_virtual_member

/-- The vtable-slot rule as the claim states it: a slot exactly when the
class declares a virtual member and no class in its base chain already
provides one — equivalently, when no ancestor declares a virtual
member (the first ancestor that does would be the chain's slot
provider). -/
def claimed_has_vtable (c : Cursor) : Bool :=
  declares_virtual_member c && !(((ancestor_chain c).drop 1).any declares_virtual_member)

/-- **C7** (code bug): in the chain `A (virtual) ← B ← C (virtual)` the
source gives both `A` and `C` a vtable slot. `has_vtable C` is true even
though `A`, in `C`'s base chain, already provides the slot, because the
recursion asks only whether the direct base is itself the *first*
virtual class. The claim — and the function's own docstring ("is the
first virtual class") and the emitted `sizeof` self-check — require
false for `C`. -/
theorem has_vtable_chain_code_bug :
    has_vtable exVA = true ∧
    ancestor_chain exVC = [exVC, exVB, exVA] ∧
    has_vtable exVC = true ∧
    claimed_has_vtable exVC = false :=
  ⟨rfl, rfl, rfl, rfl⟩

/-! ## Claim theorem for enum value emission -/

/-- The value rule as the claim states it: for enums whose canonical
underlying type is `unsigned int`, `unsigned long` or
`unsigned long long`, the parser value is reinterpreted as an unsigned
64-bit integer (`value & 0xffffffffffffffff`, i.e. `value % 2^64` on
Python ints); every other underlying type emits the parser value
unchanged. -/
def claimed_enum_value (underlying : TypeKind) (v : Int) : Int :=
  if underlying = TypeKind.UINT ∨ underlying = TypeKind.ULONG
      ∨ underlying = TypeKind.ULONGLONG then
    v % 18446744073709551616
  else v

/-- **C10**: every emitted constant of a successfully emitted enum
carries exactly the claimed value — masked to unsigned 64-bit for the
three unsigned underlying types, the parser value unchanged (hence exact
signed round-trip) otherwise. -/
theorem enum_value_emission (namespace_tabs : String) (cursor : Cursor)
    (lines : List String) (h : emit_python_api_enum namespace_tabs cursor = .ok lines) :
    ∀ constant ∈ cursor.children, constant.kind = CursorKind.ENUM_CONSTANT_DECL →
      (let enum_tabs := namespace_tabs ++ "\t"
       let spelling := constant.spelling
       let v := claimed_enum_value cursor.data.enum_type_kind constant.data.enum_value
       s!"{enum_tabs}{spelling}={v}") ∈ lines := by
  intro constant hmem hkind
  have hval : claimed_enum_value cursor.data.enum_type_kind constant.data.enum_value =
      masked_enum_value
        (decide (cursor.data.enum_type_kind = TypeKind.UINT
          ∨ cursor.data.enum_type_kind = TypeKind.ULONG
          ∨ cursor.data.enum_type_kind = TypeKind.ULONGLONG))
        constant.data.enum_value := by
    by_cases hu : cursor.data.enum_type_kind = TypeKind.UINT
        ∨ cursor.data.enum_type_kind = TypeKind.ULONG
        ∨ cursor.data.enum_type_kind = TypeKind.ULONGLONG
    · simp [claimed_enum_value, masked_enum_value, hu]
    · simp [claimed_enum_value, masked_enum_value, hu]
  have hline : (let enum_tabs := namespace_tabs ++ "\t"
      let spelling := constant.spelling
      let v := claimed_enum_value cursor.data.enum_type_kind constant.data.enum_value
      s!"{enum_tabs}{spelling}={v}") ∈
      enum_constant_lines (namespace_tabs ++ "\t")
        (decide (cursor.data.enum_type_kind = TypeKind.UINT
          ∨ cursor.data.enum_type_kind = TypeKind.ULONG
          ∨ cursor.data.enum_type_kind = TypeKind.ULONGLONG))
        cursor.children := by
    rw [enum_constant_lines]
    apply List.mem_filterMap.mpr
    refine ⟨constant, hmem, ?_⟩
    rw [if_pos hkind, hval]
  -- the successful emission contains the constant block
  simp only [emit_python_api_enum, Bind.bind, Except.bind] at h
  by_cases hempty : enum_constant_lines (namespace_tabs ++ "\t")
      (decide (cursor.data.enum_type_kind = TypeKind.UINT
        ∨ cursor.data.enum_type_kind = TypeKind.ULONG
        ∨ cursor.data.enum_type_kind = TypeKind.ULONGLONG))
      cursor.children |>.isEmpty
  · rw [if_pos hempty] at h
    simp at h
  · rw [if_neg hempty] at h
    simp only [pure, Except.pure, Except.ok.injEq] at h
    subst h
    exact List.mem_append.mpr (Or.inl (List.mem_append.mpr (Or.inr hline)))

/-- An enum constant child. -/
def mk_enum_constant (name : String) (v : Int) : Cursor :=
  .mk { kind := CursorKind.ENUM_CONSTANT_DECL, spelling := name, enum_value := v }
    void_t void_t [] [] none none

/-- An enum declaration cursor with the given canonical underlying type. -/
def mk_enum (name : String) (line : Nat) (underlying : TypeKind)
    (constants : List Cursor) : Cursor :=
  .mk { kind := CursorKind.ENUM_DECL, spelling := name, usr := "c:@E@" ++ name,
        enum_type_kind := underlying,
        location := { file := "t.h", line := line, column := 1 } }
    void_t void_t [] constants none none

/-- `enum EnumInt16 : short { E0 = -32768, E1 = -1, E2 = 32767 };` -/
def exEnum16 : Cursor :=
  mk_enum "EnumInt16" 120 TypeKind.SHORT
    [mk_enum_constant "E0" (-32768), mk_enum_constant "E1" (-1),
     mk_enum_constant "E2" 32767]

/-- The emitted binding lines of `exEnum16`. -/
def exEnum16_lines : List String :=
  ((emit_python_api_enum "" exEnum16).toOption).getD []

/-- Witness for C10: the three signed 16-bit constants round-trip to the
identical literals. -/
theorem enum_value_emission_witness :
    ("\tE0=-32768" : String) ∈ exEnum16_lines ∧
    ("\tE1=-1" : String) ∈ exEnum16_lines ∧
    ("\tE2=32767" : String) ∈ exEnum16_lines :=
  ⟨enum_value_emission "" exEnum16 exEnum16_lines rfl _ (List.Mem.head _) rfl,
   enum_value_emission "" exEnum16 exEnum16_lines rfl _
     (List.Mem.tail _ (List.Mem.head _)) rfl,
   enum_value_emission "" exEnum16 exEnum16_lines rfl _
     (List.Mem.tail _ (List.Mem.tail _ (List.Mem.head _))) rfl⟩

/-! ## Claim theorem for zero-field aggregates -/

theorem structure_field_lines_no_fields (symbols : Symbols) :
    ∀ {children : List Cursor},
    children.filter (fun c => decide (c.kind = CursorKind.FIELD_DECL)) = [] →
    structure_field_lines symbols children = .ok [] := by
  intro children
  induction children with
  | nil => intro _; rfl
  | cons field rest ih =>
    intro h
    rw [List.filter_cons] at h
    by_cases hk : field.kind = CursorKind.FIELD_DECL
    · simp [hk] at h
    · simp only [structure_field_lines, hk, if_neg, not_false_iff]
      exact ih (by simpa [hk] using h)

theorem structure_field_lines_length (symbols : Symbols) :
    ∀ {children : List Cursor} {lines : List String},
    structure_field_lines symbols children = .ok lines →
    lines.length = (children.filter (fun c => decide (c.kind = CursorKind.FIELD_DECL))).length := by
  intro children
  induction children with
  | nil =>
    intro lines h
    simp only [structure_field_lines] at h
    injection h with h
    subst h
    rfl
  | cons field rest ih =>
    intro lines h
    by_cases hk : field.kind = CursorKind.FIELD_DECL
    · simp only [structure_field_lines, hk, if_pos, Bind.bind, Except.bind] at h
      cases ht : calculate_type_string field field.type symbols type_string_kind.ctypes_struct with
      | error e => rw [ht] at h; simp at h
      | ok ct =>
        rw [ht] at h
        cases hr : structure_field_lines symbols rest with
        | error e => rw [hr] at h; simp at h
        | ok rl =>
          rw [hr] at h
          simp only [pure, Except.pure, Except.ok.injEq] at h
          subst h
          simp [List.filter_cons, hk, ih hr]
    · simp only [structure_field_lines, hk, if_neg, not_false_iff] at h
      simp [List.filter_cons, hk, ih h]

/-- **C8**: a class/struct whose emitted layout would contain zero
resulting fields after the vtable-slot logic (no `FIELD_DECL` children
and no vtable slot) makes the layout emitter raise a fatal error naming
the declaration's source location instead of emitting the layout, and
every successfully emitted layout entry has a non-empty field list. -/
theorem structure_entry_zero_fields_fatal (counter : Nat) (cursor0 : Cursor)
    (symbols : Symbols) :
    ((cursor0.children.filter (fun c => decide (c.kind = CursorKind.FIELD_DECL))) = [] →
      has_vtable cursor0 = false →
      ∀ p b, calculate_python_package_path cursor0 = .ok p →
        get_base_class cursor0 = .ok b →
        emit_structure_entry counter cursor0 symbols =
          .error (raise_error_msg cursor0 "Empty class/struct unsupported due to ctypes.")) ∧
    (∀ lines, emit_structure_entry counter cursor0 symbols = .ok lines →
      (cursor0.children.filter (fun c => decide (c.kind = CursorKind.FIELD_DECL))) ≠ []) := by
  constructor
  · intro hf _ p b hp hb
    have hfl := structure_field_lines_no_fields symbols hf
    simp [emit_structure_entry, Bind.bind, Except.bind, hp, hb, hfl]
  · intro lines h hf
    simp only [emit_structure_entry, Bind.bind, Except.bind] at h
    cases hp : calculate_python_package_path cursor0 with
    | error e => rw [hp] at h; simp at h
    | ok p =>
      rw [hp] at h
      cases hb : get_base_class cursor0 with
      | error e => rw [hb] at h; simp at h
      | ok b =>
        rw [hb] at h
        cases hfl : structure_field_lines symbols cursor0.children with
        | error e => rw [hfl] at h; simp at h
        | ok fl =>
          rw [hfl] at h
          have hlen := structure_field_lines_length symbols hfl
          rw [hf] at hlen
          simp only [List.length_nil, List.length_eq_zero] at hlen
          subst hlen
          simp at h

/-- `struct E { };` (no members at all). -/
def exEmptyS : Cursor := mk_struct "E" 130 1 []

/-- Witness for C8: the empty struct aborts layout emission with its
source location. -/
theorem structure_entry_zero_fields_fatal_witness :
    emit_structure_entry 0 exEmptyS [] =
      .error (raise_error_msg exEmptyS "Empty class/struct unsupported due to ctypes.") :=
  (structure_entry_zero_fields_fatal 0 exEmptyS []).1 rfl rfl "E" "_Ctypes.Structure" rfl rfl

/-! ## Claim theorem for idempotent symbol insertion -/

theorem symbols_add_checks_congr {c c' : Cursor}
    (hsp : c'.spelling = c.spelling) (han : c'.data.is_anonymous = c.data.is_anonymous)
    (h : symbols_add_checks c = .ok ()) : symbols_add_checks c' = .ok () := by
  unfold symbols_add_checks at h ⊢
  rw [hsp, han]
  by_cases ha : (!c.data.is_anonymous) = true
  · rw [if_pos ha] at h ⊢
    by_cases h1 : (py_startswith c.spelling "_" && decide (c.spelling.data.length > 1)
        && (match c.spelling.data.get? 1 with
            | some ch => ch.isUpper
            | none => false)) = true
    · rw [if_pos h1] at h
      simp at h
    · rw [if_neg h1] at h ⊢
      by_cases h2 : c.spelling ∈ python_kwlist ∨ c.spelling ∈ python_softkwlist
      · rw [if_pos h2] at h
        simp at h
      · rw [if_neg h2] at h ⊢
        by_cases h3 : c.spelling ∈ ctypes_reserved
        · rw [if_pos h3] at h
          simp at h
        · rw [if_neg h3]
          rfl
  · rw [if_neg ha]
    rfl

/-- **C9**: symbol-table insertion is idempotent under re-insertion of
the same concrete declaration: once a cursor with a given USR is
recorded under its package path, inserting a structurally identical
cursor (same spelling, anonymity, USR and computed path — e.g. the same
definition reached from another header) returns the table unchanged,
and a first insertion into a table without the path records exactly the
one entry `[cursor]`. -/
theorem symbols_add_idempotent (c c' : Cursor) (s s' : Symbols)
    (hadd : symbols_add c s = .ok s')
    (hsp : c'.spelling = c.spelling) (han : c'.data.is_anonymous = c.data.is_anonymous)
    (husr : c'.usr = c.usr)
    (hpath : calculate_python_package_path c' = calculate_python_package_path c) :
    symbols_add c' s' = .ok s' ∧
    (∀ p, calculate_python_package_path c = .ok p → dict_get s p = none →
      dict_get s' p = some [c]) := by
  simp only [symbols_add] at hadd
  cases hchk : symbols_add_checks c with
  | error e => rw [hchk] at hadd; simp at hadd
  | ok u =>
    cases u
    rw [hchk] at hadd
    cases hp : calculate_python_package_path c with
    | error e => rw [hp] at hadd; simp at hadd
    | ok sym =>
      rw [hp] at hadd
      have hchk' := symbols_add_checks_congr hsp han hchk
      have hstep : ∀ r : Symbols, dict_get r sym = some [c] ∨
          (∃ l, dict_get r sym = some l ∧ (l.any fun x => x.usr = c.usr) = true) →
          symbols_add c' r = .ok r := by
        intro r hr
        simp only [symbols_add, hchk', hpath, hp]
        rcases hr with hr | ⟨l, hl, hany⟩
        · rw [hr]
          have hone : ([c].any fun x => decide (x.usr = c'.usr)) = true := by
            simp [husr]
          simp [hone]
        · rw [hl]
          have hone : (l.any fun x => decide (x.usr = c'.usr)) = true := by
            rw [husr]
            simpa using hany
          simp [hone]
      have hadd2 : (match dict_get s sym with
          | none => Except.ok (dict_set s sym [c])
          | some l =>
            if (!l.any fun x => decide (x.usr = c.usr)) = true then
              Except.ok (dict_set s sym (l ++ [c]))
            else Except.ok s) = Except.ok s' := hadd
      clear hadd
      cases hg : dict_get s sym with
      | none =>
        rw [hg] at hadd2
        injection hadd2 with hadd
        subst hadd
        constructor
        · exact hstep _ (Or.inl (by rw [dict_get_set_self]))
        · intro p hpeq hpnone
          have hps : p = sym := by
            injection hpeq with hpeq
            exact hpeq.symm
          subst hps
          rw [dict_get_set_self]
      | some l =>
        rw [hg] at hadd2
        have hadd3 : (if (!l.any fun x => decide (x.usr = c.usr)) = true then
            Except.ok (dict_set s sym (l ++ [c]))
          else Except.ok s) = Except.ok s' := hadd2
        clear hadd2
        by_cases hany : (l.any fun x => decide (x.usr = c.usr)) = true
        · rw [if_neg (by simp [hany])] at hadd3
          injection hadd3 with hadd
          subst hadd
          constructor
          · exact hstep _ (Or.inr ⟨l, hg, hany⟩)
          · intro p hpeq hpnone
            have hps : p = sym := by
              injection hpeq with hpeq
              exact hpeq.symm
            subst hps
            rw [hg] at hpnone
            simp at hpnone
        · rw [if_pos (by simp [hany])] at hadd3
          injection hadd3 with hadd
          subst hadd
          constructor
          · refine hstep _ (Or.inr ⟨l ++ [c], by rw [dict_get_set_self], ?_⟩)
            simp
          · intro p hpeq hpnone
            have hps : p = sym := by
              injection hpeq with hpeq
              exact hpeq.symm
            subst hps
            rw [hg] at hpnone
            simp at hpnone

/-- Witness for C9: inserting `struct B` twice leaves one entry. -/
theorem symbols_add_idempotent_witness :
    symbols_add exBase [("B", [exBase])] = .ok [("B", [exBase])] ∧
    dict_get [("B", [exBase])] "B" = some [exBase] := by
  have h := symbols_add_idempotent exBase exBase [] [("B", [exBase])] rfl rfl rfl rfl rfl
  exact ⟨h.1, h.2 "B" rfl rfl⟩

/-! ## Claim theorems for the sorted symbol list -/

theorem char_toNat_inj {a b : Char} (h : a.toNat = b.toNat) : a = b :=
  Char.eq_of_val_eq (UInt32.ext h)

theorem chars_le_total : ∀ a b : List Char, chars_le a b = true ∨ chars_le b a = true
  | [], _ => .inl rfl
  | _ :: _, [] => .inr rfl
  | a :: as, b :: bs => by
    rcases Nat.lt_trichotomy a.toNat b.toNat with h | h | h
    · left
      simp [chars_le, h]
    · have hab : a = b := char_toNat_inj h
      subst hab
      rcases chars_le_total as bs with ih | ih
      · left
        simp [chars_le, ih]
      · right
        simp [chars_le, ih]
    · right
      simp [chars_le, h]

theorem chars_le_trans : ∀ a b c : List Char,
    chars_le a b = true → chars_le b c = true → chars_le a c = true
  | [], _, _, _, _ => rfl
  | _ :: _, [], _, h1, _ => by simp [chars_le] at h1
  | _ :: _, _ :: _, [], _, h2 => by simp [chars_le] at h2
  | x :: xs, y :: ys, z :: zs, h1, h2 => by
    simp only [chars_le] at h1 h2 ⊢
    by_cases hxy : x.toNat < y.toNat
    · by_cases hyz : y.toNat < z.toNat
      · simp [show x.toNat < z.toNat from by omega]
      · rw [if_neg hyz] at h2
        by_cases hyz2 : y.toNat = z.toNat
        · simp [show x.toNat < z.toNat from by omega]
        · rw [if_neg hyz2] at h2
          simp at h2
    · rw [if_neg hxy] at h1
      by_cases hxy2 : x.toNat = y.toNat
      · rw [if_pos hxy2] at h1
        by_cases hyz : y.toNat < z.toNat
        · simp [show x.toNat < z.toNat from by omega]
        · rw [if_neg hyz] at h2
          by_cases hyz2 : y.toNat = z.toNat
          · rw [if_pos hyz2] at h2
            have hlt : ¬ x.toNat < z.toNat := by omega
            have heq : x.toNat = z.toNat := by omega
            simp [hlt, heq, chars_le_trans xs ys zs h1 h2]
          · rw [if_neg hyz2] at h2
            simp at h2
      · rw [if_neg hxy2] at h1
        simp at h1

theorem chars_le_antisymm : ∀ a b : List Char,
    chars_le a b = true → chars_le b a = true → a = b
  | [], [], _, _ => rfl
  | [], _ :: _, _, h2 => by simp [chars_le] at h2
  | _ :: _, [], h1, _ => by simp [chars_le] at h1
  | x :: xs, y :: ys, h1, h2 => by
    simp only [chars_le] at h1 h2
    by_cases hxy : x.toNat < y.toNat
    · rw [if_pos hxy] at h1
      by_cases hyx : y.toNat < x.toNat
      · exact absurd (Nat.lt_trans hxy hyx) (Nat.lt_irrefl _)
      · rw [if_neg hyx] at h2
        by_cases hyx2 : y.toNat = x.toNat
        · exact absurd hxy (by omega)
        · rw [if_neg hyx2] at h2
          simp at h2
    · rw [if_neg hxy] at h1
      by_cases hxy2 : x.toNat = y.toNat
      · rw [if_pos hxy2] at h1
        have hx : x = y := char_toNat_inj hxy2
        subst hx
        rw [if_neg (Nat.lt_irrefl _), if_pos rfl] at h2
        rw [chars_le_antisymm xs ys h1 h2]
      · rw [if_neg hxy2] at h1
        simp at h1

theorem string_data_inj {a b : String} (h : a.data = b.data) : a = b := by
  cases a
  cases b
  exact congrArg String.mk h

theorem py_str_le_total (a b : String) : py_str_le a b = true ∨ py_str_le b a = true :=
  chars_le_total a.data b.data

theorem py_str_le_trans {a b c : String} (h1 : py_str_le a b = true)
    (h2 : py_str_le b c = true) : py_str_le a c = true :=
  chars_le_trans a.data b.data c.data h1 h2

theorem py_str_le_antisymm {a b : String} (h1 : py_str_le a b = true)
    (h2 : py_str_le b a = true) : a = b :=
  string_data_inj (chars_le_antisymm a.data b.data h1 h2)

theorem py_sorted_perm (l : List String) : (py_sorted l).Perm l :=
  List.perm_insertionSort _ l

theorem py_sorted_pairwise (l : List String) :
    (py_sorted l).Pairwise (fun a b => py_str_le a b = true) := by
  haveI : IsTotal String (fun a b => py_str_le a b = true) := ⟨py_str_le_total⟩
  haveI : IsTrans String (fun a b => py_str_le a b = true) :=
    ⟨fun _ _ _ h1 h2 => py_str_le_trans h1 h2⟩
  exact List.sorted_insertionSort _ l

/-- Over duplicate-free keys the sorted order is strict. -/
theorem py_sorted_pairwise_lt {l : List String} (h : l.Nodup) :
    (py_sorted l).Pairwise (fun a b => py_str_lt a b = true) := by
  have hnd : (py_sorted l).Nodup := ((py_sorted_perm l).nodup_iff).mpr h
  have hp := py_sorted_pairwise l
  refine (hp.and hnd).imp ?_
  intro a b hab
  rcases hab with ⟨hle, hneq⟩
  simp [py_str_lt, hle, hneq]

theorem dict_set_fresh {κ α : Type} [DecidableEq κ] :
    ∀ (m : List (κ × α)) (k : κ) (v : α), dict_get m k = none →
    dict_set m k v = m ++ [(k, v)] := by
  intro m k v
  induction m with
  | nil => intro _; rfl
  | cons p rest ih =>
    obtain ⟨pk, pv⟩ := p
    intro h
    simp only [dict_get] at h
    by_cases hp : pk = k
    · rw [if_pos hp] at h
      simp at h
    · rw [if_neg hp] at h
      simp [dict_set, hp, ih h]

/-- Invariants of the `symbols_by_sort_key` rebuild: distinct keys, the
values in input order, and each stored pair keyed by its own
`symbol_sort_key`. -/
theorem symbols_sort_build_ok :
    ∀ {ls : List (List Cursor)} {acc out : List (String × List Cursor)},
    symbols_sort_build ls acc = .ok out →
    (acc.map Prod.fst).Nodup →
    (∀ p ∈ acc, symbol_sort_key p.2 = .ok p.1) →
    ((out.map Prod.fst).Nodup ∧
     out.map Prod.snd = acc.map Prod.snd ++ ls ∧
     ∀ p ∈ out, symbol_sort_key p.2 = .ok p.1) := by
  intro ls
  induction ls with
  | nil =>
    intro acc out h hnd hkey
    simp only [symbols_sort_build] at h
    injection h with h
    subst h
    exact ⟨hnd, by simp, hkey⟩
  | cons cl rest ih =>
    intro acc out h hnd hkey
    simp only [symbols_sort_build] at h
    cases hk : symbol_sort_key cl with
    | error e => rw [hk] at h; simp at h
    | ok key =>
      rw [hk] at h
      have h2 : (if dict_contains acc key = true then
            (Except.error "AssertionError: sort_key_str in symbols_by_sort_key" :
              Except String (List (String × List Cursor)))
          else symbols_sort_build rest (dict_set acc key cl)) = Except.ok out := h
      by_cases hc : dict_contains acc key = true
      · rw [if_pos hc] at h2
        simp at h2
      · rw [if_neg hc] at h2
        clear h
        have h := h2
        have hnone : dict_get acc key = none := by
          simp only [dict_contains] at hc
          cases hg : dict_get acc key with
          | none => rfl
          | some v => rw [hg] at hc; simp at hc
        rw [dict_set_fresh acc key cl hnone] at h
        have hknotmem : key ∉ acc.map Prod.fst := (dict_get_none_iff acc key).mp hnone
        have hnd' : ((acc ++ [(key, cl)]).map Prod.fst).Nodup := by
          rw [List.map_append]
          exact List.Nodup.append hnd (List.nodup_singleton key)
            (fun x hx hk2 => by simp at hk2; exact hknotmem (hk2 ▸ hx))
        have hkey' : ∀ p ∈ acc ++ [(key, cl)], symbol_sort_key p.2 = .ok p.1 := by
          intro p hp
          rcases List.mem_append.mp hp with hp | hp
          · exact hkey p hp
          · simp at hp
            subst hp
            exact hk
        rcases ih h hnd' hkey' with ⟨h1, h2, h3⟩
        refine ⟨h1, ?_, h3⟩
        rw [h2, List.map_append]
        simp

/-- Looking every key of a duplicate-free dict back up returns its
values in order. -/
theorem filterMap_get_keys {κ α : Type} [DecidableEq κ] :
    ∀ (m : List (κ × α)), (m.map Prod.fst).Nodup →
    (m.map Prod.fst).filterMap (fun k => dict_get m k) = m.map Prod.snd := by
  intro m
  induction m with
  | nil => intro _; rfl
  | cons p rest ih =>
    obtain ⟨pk, pv⟩ := p
    intro hnd
    simp only [List.map_cons, List.nodup_cons] at hnd
    have hself : dict_get ((pk, pv) :: rest) pk = some pv := by
      simp [dict_get]
    rw [List.map_cons, List.filterMap_cons, hself]
    have hcongr : (rest.map Prod.fst).filterMap (fun k => dict_get ((pk, pv) :: rest) k) =
        (rest.map Prod.fst).filterMap (fun k => dict_get rest k) :=
      List.filterMap_congr (fun k hk => by
        have hne : pk ≠ k := fun he => hnd.1 (he ▸ hk)
        simp [dict_get, hne])
    rw [hcongr, ih hnd.2]
    rfl

theorem pairwise_filterMap_of {α β : Type} {S : α → α → Prop} {R : β → β → Prop}
    (f : α → Option β)
    (hf : ∀ a b x y, S a b → f a = some x → f b = some y → R x y) :
    ∀ {l : List α}, l.Pairwise S → (l.filterMap f).Pairwise R := by
  intro l
  induction l with
  | nil => intro _; simp
  | cons a rest ih =>
    intro hp
    rcases List.pairwise_cons.mp hp with ⟨hhead, htail⟩
    rw [List.filterMap_cons]
    cases hfa : f a with
    | none => exact ih htail
    | some x =>
      refine List.pairwise_cons.mpr ⟨?_, ih htail⟩
      intro y hy
      rcases List.mem_filterMap.mp hy with ⟨b, hb, hfb⟩
      exact hf a b x y (hhead b hb) hfa hfb

/-- `struct a { int x; };` at global scope. -/
def exStructA : Cursor := mk_struct "a" 140 4 [mk_field "x" fund_int]

/-- `void b();` at global scope. -/
def exFunBf : Cursor := mk_free_function "b" "_Z1bv" 141 [] void_t

def symbols6 : Symbols := [("a", [exStructA]), ("b", [exFunBf])]

/-- The declaration-kind rank table as the claim states it — enum,
function, struct, class, constructor, destructor, method. (Modelled
from the spec's words; the source computes no such rank.) -/
def claimed_kind_rank : CursorKind → Nat
  | .ENUM_DECL => 0
  | .FUNCTION_DECL => 1
  | .STRUCT_DECL => 2
  | .CLASS_DECL => 3
  | .CONSTRUCTOR => 4
  | .DESTRUCTOR => 5
  | .CXX_METHOD => 6
  | _ => 7

/-- **C6** counterexample: with a struct `a` and a function `b` in the
same (global) namespace, the claim's composite key — equal path, then
kind rank with function before struct — requires the function first,
but the code sorts by the dot-joined name string alone and emits struct
`a` first. -/
theorem symbols_sort_kind_rank_counterexample :
    symbols_sort symbols6 = .ok [[exStructA], [exFunBf]] ∧
    calculate_namespace exStructA = calculate_namespace exFunBf ∧
    claimed_kind_rank exFunBf.kind < claimed_kind_rank exStructA.kind :=
  ⟨rfl, rfl, by decide⟩

/-- **C6** (amended): the sorted symbol list is the symbol table's
values reordered strictly increasingly by the composite key string —
namespace components and normalized (dunder) name joined with dots,
compared lexicographically by code points, with no declaration-kind rank
component; on every successful run the key strings are pairwise
distinct (a duplicate key aborts immediately), so the order is a strict
total order with no ties. -/
theorem symbols_sort_strict_order (symbols : Symbols) (out : List (List Cursor))
    (h : symbols_sort symbols = .ok out) :
    out.Perm (symbols.map (fun p => p.2)) ∧
    out.Pairwise (fun l1 l2 => ∀ k1 k2, symbol_sort_key l1 = .ok k1 →
      symbol_sort_key l2 = .ok k2 → py_str_lt k1 k2 = true) := by
  simp only [symbols_sort, Bind.bind, Except.bind] at h
  cases hb : symbols_sort_build (symbols.map (fun p => p.2)) [] with
  | error e => rw [hb] at h; simp at h
  | ok by_key =>
    rw [hb] at h
    simp only [pure, Except.pure, Except.ok.injEq] at h
    subst h
    rcases symbols_sort_build_ok hb (by simp) (by simp) with ⟨hnd, hvals, hkeys⟩
    simp only [List.map_nil, List.nil_append] at hvals
    constructor
    · have hperm1 := List.Perm.filterMap (fun key => dict_get by_key key)
        (py_sorted_perm (by_key.map (fun p => p.1)))
      have heq : (by_key.map (fun p => p.1)).filterMap (fun key => dict_get by_key key) =
          by_key.map (fun p => p.2) := filterMap_get_keys by_key hnd
      rw [heq, hvals] at hperm1
      exact hperm1
    · apply pairwise_filterMap_of (fun key => dict_get by_key key) ?_
        (py_sorted_pairwise_lt hnd)
      intro k1 k2 v1 v2 hlt hg1 hg2
      intro k1' k2' hk1 hk2
      have he1 : symbol_sort_key v1 = .ok k1 := hkeys (k1, v1) (mem_of_dict_get_eq_some hg1)
      have he2 : symbol_sort_key v2 = .ok k2 := hkeys (k2, v2) (mem_of_dict_get_eq_some hg2)
      rw [he1] at hk1
      rw [he2] at hk2
      injection hk1 with hk1
      injection hk2 with hk2
      subst hk1
      subst hk2
      exact hlt

/-- Witness for the amended C6 on the two-entry table. -/
theorem symbols_sort_strict_order_witness :
    ([[exStructA], [exFunBf]] : List (List Cursor)).Perm (symbols6.map (fun p => p.2)) ∧
    ([[exStructA], [exFunBf]] : List (List Cursor)).Pairwise
      (fun l1 l2 => ∀ k1 k2, symbol_sort_key l1 = .ok k1 →
        symbol_sort_key l2 = .ok k2 → py_str_lt k1 k2 = true) :=
  symbols_sort_strict_order symbols6 [[exStructA], [exFunBf]] rfl

end Entanglement
